import Mathlib

/-!
# NTPUDPServer.c : a shallow embedding of the NTP responder

The C translation unit has one polled function, `NTPUDPServer`, a switch over the
file-static `SNTPState`, one helper `ntp_read_u32`, and `NTPUDPServer_Restart`.
All function-static variables are gathered in `ServerState`.  Everything the
function reads from outside the translation unit during one invocation (return
values of the Berkeley/UDP/Tick calls and the ambient globals) is gathered in
`Env`; every external call it performs is logged as a `Call`.

Machine integers are `Nat`/`Int` with explicit wrap-around:
`UINT32`/`DWORD` are taken modulo `2^32`, `LONG` is 32-bit two's complement,
`SHORT` is 16-bit two's complement.
-/

namespace NTP

/-! ## Machine integers -/

/-- Conversion to `DWORD` / `UINT32`: reduction modulo `2^32`. -/
def toDWORD (v : Nat) : Nat := v % 4294967296

/-- Conversion to `LONG`: the 32-bit two's complement value congruent to `v`
modulo `2^32`. -/
def toLONG (v : Int) : Int :=
  if v % 4294967296 < 2147483648 then v % 4294967296 else v % 4294967296 - 4294967296

/-- Conversion to `SHORT`: the 16-bit two's complement value congruent to `v`
modulo `2^16`. -/
def toSHORT (v : Int) : Int :=
  if v % 65536 < 32768 then v % 65536 else v % 65536 - 65536

/-! ## `ntp_read_u32` (lines 116-128) -/

/-- The object representation of a `UINT32` reached through `(UINT8*) &val`:
`d0` is the byte at the lowest address.  The target is little-endian, so `d0`
is the least significant byte. -/
structure Bytes4 where
  d0 : Nat
  d1 : Nat
  d2 : Nat
  d3 : Nat
  deriving DecidableEq, Repr

/-- Bytes of a 32-bit value, lowest address first. -/
def u32_bytes (val : Nat) : Bytes4 :=
  { d0 := val % 256
    d1 := val / 256 % 256
    d2 := val / 65536 % 256
    d3 := val / 16777216 % 256 }

/-- The 32-bit value held in four bytes, lowest address first. -/
def bytes_u32 (d : Bytes4) : Nat :=
  d.d0 + 256 * d.d1 + 65536 * d.d2 + 16777216 * d.d3

/-- `static UINT32 ntp_read_u32(UINT32 val)`: the argument is converted to
`UINT32`, then `d[0]` and `d[3]` are exchanged through `tmp`, then `d[1]` and
`d[2]`, and the modified `val` is returned. -/
def ntp_read_u32 (val : Nat) : Nat :=
  let d := u32_bytes (toDWORD val)
  let tmp := d.d0
  let d := { d with d0 := d.d3 }
  let d := { d with d3 := tmp }
  let tmp := d.d1
  let d := { d with d1 := d.d2 }
  let d := { d with d2 := tmp }
  bytes_u32 d

/-! ## Data model (lines 38-98) -/

/-- The anonymous bit-field struct `flags` of `NTP_PACKET`. -/
structure Flags where
  mode : Nat
  versionNumber : Nat
  leapIndicator : Nat
  deriving DecidableEq, Repr

/-- The anonymous struct `root_delay` of `NTP_PACKET` (two `SHORT`s). -/
structure RootDelay where
  delay_secs : Int
  delay_fraq : Int
  deriving DecidableEq, Repr

/-- The anonymous struct `root_dispersion` of `NTP_PACKET` (two `SHORT`s). -/
structure RootDispersion where
  dispersion_secs : Int
  dispersion_fraq : Int
  deriving DecidableEq, Repr

/-- The anonymous struct `ref_identifier` of `NTP_PACKET` (four bytes). -/
structure RefIdentifier where
  firstLetter : Nat
  secondLetter : Nat
  thirdLetter : Nat
  otherbytes : Nat
  deriving DecidableEq, Repr

/-- The C struct `NTP_PACKET`. -/
structure NTP_PACKET where
  flags : Flags
  stratum : Nat
  poll : Int
  precision : Int
  root_delay : RootDelay
  root_dispersion : RootDispersion
  ref_identifier : RefIdentifier
  ref_ts_secs : Nat
  ref_ts_fraq : Nat
  orig_ts_secs : Nat
  orig_ts_fraq : Nat
  recv_ts_secs : Nat
  recv_ts_fraq : Nat
  tx_ts_secs : Nat
  tx_ts_fraq : Nat
  deriving DecidableEq, Repr

/-- The packet after `memset(&pkt, 0, sizeof (pkt))`; also the initial value of
a static `NTP_PACKET`. -/
def zeroPacket : NTP_PACKET :=
  { flags := { mode := 0, versionNumber := 0, leapIndicator := 0 }
    stratum := 0
    poll := 0
    precision := 0
    root_delay := { delay_secs := 0, delay_fraq := 0 }
    root_dispersion := { dispersion_secs := 0, dispersion_fraq := 0 }
    ref_identifier := { firstLetter := 0, secondLetter := 0, thirdLetter := 0, otherbytes := 0 }
    ref_ts_secs := 0
    ref_ts_fraq := 0
    orig_ts_secs := 0
    orig_ts_fraq := 0
    recv_ts_secs := 0
    recv_ts_fraq := 0
    tx_ts_secs := 0
    tx_ts_fraq := 0 }

/-- The fields of `struct sockaddr_in` that the server touches. -/
structure sockaddr_in where
  sin_family : Nat
  sin_port : Nat
  sin_addr : Nat
  deriving DecidableEq, Repr

/-- The enumeration of `SNTPState` (lines 93-98). -/
inductive SNTPStateT
  | SM_NTP_CREATE_SOCKET
  | SM_NTP_UDP_BIND
  | SM_NTP_UDP_LISTENING
  | SM_NTP_UDP_ANSWER
  deriving DecidableEq, Repr

/-- The file-static `SNTPState` together with the function-static variables of
`NTPUDPServer` (lines 143-155).  `actualNTPTime` is the function-static of line
152; no statement of the translation unit assigns it. -/
@[ext]
structure ServerState where
  SNTPState : SNTPStateT
  pkt : NTP_PACKET
  pktRx : NTP_PACKET
  dwTimer : Nat
  currentlyActiveIP : Nat
  bsdUdpServerSocket : Nat
  addrlen : Int
  udpaddr : sockaddr_in
  bindConfirmation : Int
  rxInfo : Int
  actualNTPTime : Nat
  originFraction : Int
  transmitFraction : Int
  delayShift : Nat
  deriving DecidableEq, Repr

/-- Constants of the TCP/IP stack headers, which are not part of the
translation unit; they are parameters of the model. -/
structure Platform where
  AF_INET : Nat
  IP_ADDR_ANY : Nat
  INVALID_SOCKET : Nat
  UNKNOWN_SOCKET : Nat
  sizeof_sockaddr_in : Int
  deriving DecidableEq, Repr

/-- The three ambient clock-status globals read by the leap-indicator test:
`AppConfig.gpsIsEnabled` (compared with `1`), `gpsLastSyncFail` (compared with
`false`) and `isClockManual` (compared with `true`).  Their declarations are in
`app.h`, outside the translation unit; the two that are compared with the
`bool` constants are taken to be `bool`. -/
structure ClockFlags where
  gpsIsEnabled : Nat
  gpsLastSyncFail : Bool
  isClockManual : Bool
  deriving DecidableEq, Repr

/-- Everything one invocation of `NTPUDPServer` can read from outside the
translation unit.  A global that is read several times in the ANSWER case has
one field per read, in source order (`flagsRow2`, `flagsRow4`, `flagsRow7` for
the three leap-indicator tests; `fractionRef`, `fractionTx` for
`arithmeticFraction`; `TickGet_ret`, `TickGet_ret2` for the two `TickGet`
calls).  The LISTENING case uses `fractionRef` and `TickGet_ret` for its single
reads.  `recvfrom_buf`, `recvfrom_src` and `recvfrom_fromlen` are the contents
of `pktRx`, `udpaddr` and `addrlen` after a `recvfrom` that returned a non-zero
value. -/
structure Env where
  gps_msDelay : Nat
  ntpsLastKnownIP : Nat
  ntpPort : Nat
  socket_ret : Nat
  bind_ret : Int
  UDPIsOpened_ret : Bool
  recvfrom_ret : Int
  recvfrom_buf : NTP_PACKET
  recvfrom_src : sockaddr_in
  recvfrom_fromlen : Int
  flagsRow2 : ClockFlags
  flagsRow4 : ClockFlags
  flagsRow7 : ClockFlags
  fractionRef : Nat
  fractionTx : Nat
  TickGet_ret : Nat
  TickGet_ret2 : Nat
  sendto_ret : Int
  deriving DecidableEq, Repr

/-- The external calls performed by the server, with the arguments and results
that matter. -/
inductive Call
  | socket (ret : Nat)
  | bind (s : Nat) (addr : sockaddr_in) (ret : Int)
  | UDPIsOpened (s : Nat) (ret : Bool)
  | closesocket (s : Nat)
  | recvfrom (s : Nat) (ret : Int)
  | sendto (s : Nat) (pkt : NTP_PACKET) (dest : sockaddr_in) (ret : Int)
  | TickGet (ret : Nat)
  deriving DecidableEq, Repr

/-! ## The state machine (lines 104-106 and 140-361) -/

/-- The static variables at program start: statics are zero-initialised, so
`SNTPState` is the first enumerator, and `addrlen` is initialised to
`sizeof (struct sockaddr_in)`. -/
def initialState (c : Platform) : ServerState :=
  { SNTPState := .SM_NTP_CREATE_SOCKET
    pkt := zeroPacket
    pktRx := zeroPacket
    dwTimer := 0
    currentlyActiveIP := 0
    bsdUdpServerSocket := 0
    addrlen := c.sizeof_sockaddr_in
    udpaddr := { sin_family := 0, sin_port := 0, sin_addr := 0 }
    bindConfirmation := 0
    rxInfo := 0
    actualNTPTime := 0
    originFraction := 0
    transmitFraction := 0
    delayShift := 0 }

/-- `void NTPUDPServer_Restart(void)` (lines 104-106). -/
def NTPUDPServer_Restart (s : ServerState) : ServerState :=
  { s with SNTPState := .SM_NTP_CREATE_SOCKET }

/-- The `if / else if / else` that assigns `pkt.flags.leapIndicator`; the
source has it three times (lines 263-269, 290-296, 322-328), each time with a
fresh read of the globals. -/
def leapIndicatorOf (f : ClockFlags) : Nat :=
  if f.gpsIsEnabled = 1 ∧ f.gpsLastSyncFail = false then 0
  else if f.isClockManual = true then 0
  else 3

/-- Case `SM_NTP_CREATE_SOCKET` (lines 169-180): `currentlyActiveIP` and
`bsdUdpServerSocket` are assigned, then the handle is tested. -/
def caseCreateSocket (c : Platform) (e : Env) (s : ServerState) :
    ServerState × List Call :=
  let s := { s with currentlyActiveIP := e.ntpsLastKnownIP, bsdUdpServerSocket := e.socket_ret }
  let calls := [Call.socket e.socket_ret]
  if s.bsdUdpServerSocket ≠ c.INVALID_SOCKET ∧ s.bsdUdpServerSocket ≠ c.UNKNOWN_SOCKET then
    ({ s with SNTPState := .SM_NTP_UDP_BIND }, calls)
  else
    (s, calls)

/-- Case `SM_NTP_UDP_BIND` (lines 186-204): the three fields of `udpaddr` and
`bindConfirmation` are assigned, then the `if / else if` of lines 195-202. -/
def caseBind (c : Platform) (e : Env) (s : ServerState) :
    ServerState × List Call :=
  let s := { s with
    udpaddr := { sin_family := c.AF_INET, sin_port := e.ntpPort, sin_addr := c.IP_ADDR_ANY }
    bindConfirmation := e.bind_ret }
  let calls := [Call.bind s.bsdUdpServerSocket s.udpaddr e.bind_ret]
  if s.bindConfirmation = 0 then
    ({ s with SNTPState := .SM_NTP_UDP_LISTENING }, calls)
  else if s.bindConfirmation ≠ 0 ∨ s.currentlyActiveIP ≠ e.ntpsLastKnownIP
      ∨ s.bsdUdpServerSocket = c.INVALID_SOCKET then
    ({ s with SNTPState := .SM_NTP_CREATE_SOCKET }, calls)
  else
    (s, calls)

/-- Modelled from the spec: the body of `recvfrom` (Berkeley API of the TCP/IP
stack) is not in the translation unit.  Following
`poll_receive(EndpointHandle) -> Option<(bytes, sender_address)>`, the statement
`rxInfo = recvfrom(bsdUdpServerSocket, &pktRx, sizeof (pktRx), 0, &udpaddr, &addrlen)`
of line 225 leaves the buffers alone when it returns 0 (no datagram), and
otherwise comes with the new contents of `pktRx`, `udpaddr` and `addrlen`. -/
def recvfromCall (e : Env) (s : ServerState) : ServerState :=
  if e.recvfrom_ret = 0 then
    { s with rxInfo := e.recvfrom_ret }
  else
    { s with pktRx := e.recvfrom_buf, udpaddr := e.recvfrom_src,
             addrlen := e.recvfrom_fromlen, rxInfo := e.recvfrom_ret }

/-- Case `SM_NTP_UDP_LISTENING` (lines 210-242). -/
def caseListening (e : Env) (s : ServerState) : ServerState × List Call :=
  if e.UDPIsOpened_ret = false then
    ({ s with SNTPState := .SM_NTP_CREATE_SOCKET },
      [Call.UDPIsOpened s.bsdUdpServerSocket e.UDPIsOpened_ret])
  else if s.currentlyActiveIP ≠ e.ntpsLastKnownIP then
    ({ s with SNTPState := .SM_NTP_CREATE_SOCKET },
      [Call.UDPIsOpened s.bsdUdpServerSocket e.UDPIsOpened_ret,
       Call.closesocket s.bsdUdpServerSocket])
  else
    let calls := [Call.UDPIsOpened s.bsdUdpServerSocket e.UDPIsOpened_ret,
                  Call.recvfrom s.bsdUdpServerSocket e.recvfrom_ret]
    let s := recvfromCall e s
    if s.rxInfo ≠ 0 then
      ({ s with
          pktRx := { s.pktRx with
            recv_ts_secs := ntp_read_u32 s.actualNTPTime
            recv_ts_fraq := toDWORD e.fractionRef }
          originFraction := toLONG (toDWORD e.TickGet_ret)
          SNTPState := .SM_NTP_UDP_ANSWER },
        calls ++ [Call.TickGet e.TickGet_ret])
    else
      (s, calls)

/-- The reply assembled in case `SM_NTP_UDP_ANSWER` before `sendto`
(lines 249-346), statement by statement. -/
def buildReply (e : Env) (s : ServerState) : NTP_PACKET := Id.run do
  let mut pkt : NTP_PACKET := zeroPacket
  pkt := { pkt with flags := { pkt.flags with versionNumber := 3 } }
  pkt := { pkt with flags := { pkt.flags with mode := 4 } }
  pkt := { pkt with stratum := 1 }
  pkt := { pkt with poll := 6 }
  pkt := { pkt with precision := -9 }
  pkt := { pkt with flags := { pkt.flags with leapIndicator := leapIndicatorOf e.flagsRow2 } }
  pkt := { pkt with ref_identifier := { pkt.ref_identifier with firstLetter := 0x47 } }
  pkt := { pkt with ref_identifier := { pkt.ref_identifier with secondLetter := 0x50 } }
  pkt := { pkt with ref_identifier := { pkt.ref_identifier with thirdLetter := 0x53 } }
  pkt := { pkt with ref_identifier := { pkt.ref_identifier with otherbytes := 0x00 } }
  pkt := { pkt with flags := { pkt.flags with leapIndicator := leapIndicatorOf e.flagsRow4 } }
  pkt := { pkt with ref_ts_secs := ntp_read_u32 s.actualNTPTime }
  pkt := { pkt with ref_ts_fraq := toDWORD e.fractionRef }
  pkt := { pkt with orig_ts_secs := s.pktRx.tx_ts_secs }
  pkt := { pkt with orig_ts_fraq := s.pktRx.tx_ts_fraq }
  pkt := { pkt with recv_ts_secs := s.pktRx.recv_ts_secs }
  pkt := { pkt with recv_ts_fraq := s.pktRx.recv_ts_fraq }
  pkt := { pkt with flags := { pkt.flags with leapIndicator := leapIndicatorOf e.flagsRow7 } }
  pkt := { pkt with tx_ts_secs := ntp_read_u32 s.actualNTPTime }
  pkt := { pkt with tx_ts_fraq := toDWORD e.fractionTx }
  pkt := { pkt with root_delay := { pkt.root_delay with delay_secs := 0 } }
  let transmitFraction : Int := toLONG (toDWORD e.TickGet_ret)
  pkt := { pkt with root_delay := { pkt.root_delay with
    delay_fraq := toSHORT ((toLONG (transmitFraction - s.originFraction)).tmod 1000) } }
  pkt := { pkt with root_dispersion := { pkt.root_dispersion with dispersion_secs := 0 } }
  pkt := { pkt with root_dispersion := { pkt.root_dispersion with
    dispersion_fraq := toSHORT (((0x11 / 16 % 100 : Nat) : Int)) } }
  return pkt

/-- Case `SM_NTP_UDP_ANSWER` (lines 247-352): `pkt` is rebuilt,
`transmitFraction` is assigned, `sendto` is called with `pkt` and `udpaddr`, and
on a positive return `dwTimer` and `SNTPState` are assigned. -/
def caseAnswer (e : Env) (s : ServerState) : ServerState × List Call :=
  let calls := [Call.TickGet e.TickGet_ret,
                Call.sendto s.bsdUdpServerSocket (buildReply e s) s.udpaddr e.sendto_ret]
  if e.sendto_ret > 0 then
    ({ s with
        pkt := buildReply e s
        transmitFraction := toLONG (toDWORD e.TickGet_ret)
        dwTimer := toDWORD e.TickGet_ret2
        SNTPState := .SM_NTP_UDP_LISTENING },
      calls ++ [Call.TickGet e.TickGet_ret2])
  else
    ({ s with
        pkt := buildReply e s
        transmitFraction := toLONG (toDWORD e.TickGet_ret) },
      calls)

/-- `void NTPUDPServer(void)` (lines 140-361): one polled invocation.  Returns
the statics after the invocation and the external calls it made, in order. -/
def NTPUDPServer (c : Platform) (e : Env) (s : ServerState) : ServerState × List Call :=
  let s := { s with delayShift := e.gps_msDelay }
  match s.SNTPState with
  | .SM_NTP_CREATE_SOCKET => caseCreateSocket c e s
  | .SM_NTP_UDP_BIND => caseBind c e s
  | .SM_NTP_UDP_LISTENING => caseListening e s
  | .SM_NTP_UDP_ANSWER => caseAnswer e s

/-! ## Runs -/

/-- One call made by the external poll loop. -/
inductive Invocation
  | server (e : Env)
  | restart
  deriving DecidableEq, Repr

/-- The effect of one invocation on the statics, with the external calls made. -/
def invoke (c : Platform) (i : Invocation) (s : ServerState) : ServerState × List Call :=
  match i with
  | .server e => NTPUDPServer c e s
  | .restart => (NTPUDPServer_Restart s, [])

/-- The statics after a finite sequence of invocations. -/
def runState (c : Platform) : List Invocation → ServerState → ServerState
  | [], s => s
  | i :: is, s => runState c is (invoke c i s).1

/-- The packets handed to `sendto` in a list of calls. -/
def sentPackets : List Call → List NTP_PACKET
  | [] => []
  | Call.sendto _ pkt _ _ :: cs => pkt :: sentPackets cs
  | _ :: cs => sentPackets cs

/-- The destination addresses handed to `sendto` in a list of calls. -/
def sentDestinations : List Call → List sockaddr_in
  | [] => []
  | Call.sendto _ _ dest _ :: cs => dest :: sentDestinations cs
  | _ :: cs => sentDestinations cs

/-- Whether a call is a `sendto`. -/
def Call.isSend : Call → Bool
  | .sendto _ _ _ _ => true
  | _ => false

/-- Whether a call is a `recvfrom`, whatever it returned. -/
def Call.isRecvfrom : Call → Bool
  | .recvfrom _ _ => true
  | _ => false

/-! ## Concrete inputs used to instantiate the theorems -/

/-- The constants as the Microchip stack headers define them. -/
def examplePlatform : Platform :=
  { AF_INET := 2, IP_ADDR_ANY := 0, INVALID_SOCKET := 0xFE, UNKNOWN_SOCKET := 0xFF,
    sizeof_sockaddr_in := 16 }

/-- A request whose transmit timestamp is `(1000, 500)`, in client mode 3. -/
def exampleRequest : NTP_PACKET :=
  { zeroPacket with
    flags := { mode := 3, versionNumber := 3, leapIndicator := 0 }
    tx_ts_secs := 1000
    tx_ts_fraq := 500 }

/-- Clock flags of a GPS-locked unit. -/
def gpsLocked : ClockFlags :=
  { gpsIsEnabled := 1, gpsLastSyncFail := false, isClockManual := false }

/-- Clock flags of a unit that is neither GPS-locked nor manually set. -/
def unsynchronized : ClockFlags :=
  { gpsIsEnabled := 0, gpsLastSyncFail := true, isClockManual := false }

/-- An environment in which every transport call succeeds and a 48-byte request
from `192.168.1.7:123` is pending. -/
def exampleEnv : Env :=
  { gps_msDelay := 0
    ntpsLastKnownIP := 0xC0A80102
    ntpPort := 123
    socket_ret := 0
    bind_ret := 0
    UDPIsOpened_ret := true
    recvfrom_ret := 48
    recvfrom_buf := exampleRequest
    recvfrom_src := { sin_family := 2, sin_port := 123, sin_addr := 0xC0A80107 }
    recvfrom_fromlen := 16
    flagsRow2 := gpsLocked
    flagsRow4 := gpsLocked
    flagsRow7 := gpsLocked
    fractionRef := 250
    fractionTx := 300
    TickGet_ret := 5000
    TickGet_ret2 := 5001
    sendto_ret := 48 }

/-- The statics once the socket is created on address `0xC0A80102`, in a given
state of the switch. -/
def exampleState (st : SNTPStateT) : ServerState :=
  { initialState examplePlatform with
    SNTPState := st
    currentlyActiveIP := 0xC0A80102 }

/-- A LISTENING invocation on an open endpoint with unchanged address in which
`recvfrom` returns 47. -/
def shortDatagramEnv : Env :=
  { exampleEnv with recvfrom_ret := 47 }

/-- An environment in which `bind` succeeds while the configured address is no
longer the one recorded at CREATE_SOCKET. -/
def addressChangedEnv : Env :=
  { exampleEnv with ntpsLastKnownIP := 0xC0A80103 }

/-- The statics while the request of `exampleEnv`, stamped at arrival, waits
for its reply. -/
def pendingState : ServerState :=
  (NTPUDPServer examplePlatform exampleEnv (exampleState .SM_NTP_UDP_LISTENING)).1

/-- An environment whose `arithmeticFraction` reads 1 at every read. -/
def fractionOneEnv : Env :=
  { exampleEnv with fractionRef := 1, fractionTx := 1 }

/-- The environment of `exampleEnv` with a failing `sendto`. -/
def sendFailsEnv : Env :=
  { exampleEnv with sendto_ret := -1 }

/-- The environment of `exampleEnv` with nothing pending: `recvfrom` returns 0. -/
def noDatagramEnv : Env :=
  { exampleEnv with recvfrom_ret := 0 }

/-- The environment of a later invocation: the clock fraction and the tick
counter have advanced and the unit has lost synchronisation. -/
def laterEnv : Env :=
  { exampleEnv with
    flagsRow2 := unsynchronized
    flagsRow4 := unsynchronized
    flagsRow7 := unsynchronized
    fractionRef := 700
    fractionTx := 750
    TickGet_ret := 5600
    TickGet_ret2 := 5601 }

/-- An environment in which `socket` fails with `INVALID_SOCKET`. -/
def socketFailsEnv : Env :=
  { exampleEnv with socket_ret := 0xFE }

/-- The environment of an ANSWER invocation in which `TickGet` returns 4999, one
less than the arrival tick 5000 of `pendingState`: the 32-bit counter has gone
all the way round. -/
def wrappedTickEnv : Env :=
  { exampleEnv with TickGet_ret := 4999 }

/-- A second request with the transmit timestamp `(1000, 500)` of
`exampleRequest` and every other field different. -/
def otherRequest : NTP_PACKET :=
  { flags := { mode := 1, versionNumber := 4, leapIndicator := 2 }
    stratum := 9
    poll := 10
    precision := -20
    root_delay := { delay_secs := 7, delay_fraq := 8 }
    root_dispersion := { dispersion_secs := 5, dispersion_fraq := 6 }
    ref_identifier := { firstLetter := 1, secondLetter := 2, thirdLetter := 3, otherbytes := 4 }
    ref_ts_secs := 11
    ref_ts_fraq := 12
    orig_ts_secs := 13
    orig_ts_fraq := 14
    recv_ts_secs := 15
    recv_ts_fraq := 16
    tx_ts_secs := 1000
    tx_ts_fraq := 500 }

theorem u32_bytes_bytes_u32 (d : Bytes4) (h0 : d.d0 < 256) (h1 : d.d1 < 256)
    (h2 : d.d2 < 256) (h3 : d.d3 < 256) : u32_bytes (bytes_u32 d) = d := by
  obtain ⟨a, b, cc, dd⟩ := d
  simp only [u32_bytes, bytes_u32] at *
  refine congr (congr (congr (congrArg Bytes4.mk ?_) ?_) ?_) ?_ <;> omega

theorem bytes_u32_u32_bytes (x : Nat) (h : x < 2 ^ 32) : bytes_u32 (u32_bytes x) = x := by
  simp only [u32_bytes, bytes_u32]
  omega

theorem bytes_u32_lt (d : Bytes4) (h0 : d.d0 < 256) (h1 : d.d1 < 256)
    (h2 : d.d2 < 256) (h3 : d.d3 < 256) : bytes_u32 d < 2 ^ 32 := by
  simp only [bytes_u32]
  omega

/-- The function spelled out: the result holds the bytes of the argument in
reverse order. -/
theorem ntp_read_u32_eq (x : Nat) :
    ntp_read_u32 x =
      bytes_u32 { d0 := (u32_bytes (toDWORD x)).d3, d1 := (u32_bytes (toDWORD x)).d2,
                  d2 := (u32_bytes (toDWORD x)).d1, d3 := (u32_bytes (toDWORD x)).d0 } := rfl

theorem u32_bytes_lt (x : Nat) :
    (u32_bytes x).d0 < 256 ∧ (u32_bytes x).d1 < 256 ∧ (u32_bytes x).d2 < 256
      ∧ (u32_bytes x).d3 < 256 := by
  simp only [u32_bytes]
  omega

theorem ntp_read_u32_twice (x : Nat) : ntp_read_u32 (ntp_read_u32 x) = toDWORD x := by
  obtain ⟨h0, h1, h2, h3⟩ := u32_bytes_lt (toDWORD x)
  have hlt := bytes_u32_lt
    { d0 := (u32_bytes (toDWORD x)).d3, d1 := (u32_bytes (toDWORD x)).d2,
      d2 := (u32_bytes (toDWORD x)).d1, d3 := (u32_bytes (toDWORD x)).d0 } h3 h2 h1 h0
  have hb := u32_bytes_bytes_u32
    { d0 := (u32_bytes (toDWORD x)).d3, d1 := (u32_bytes (toDWORD x)).d2,
      d2 := (u32_bytes (toDWORD x)).d1, d3 := (u32_bytes (toDWORD x)).d0 } h3 h2 h1 h0
  have hx : toDWORD x < 2 ^ 32 := Nat.mod_lt _ (by norm_num)
  rw [ntp_read_u32_eq (ntp_read_u32 x), ntp_read_u32_eq x]
  have hd : toDWORD (bytes_u32
      { d0 := (u32_bytes (toDWORD x)).d3, d1 := (u32_bytes (toDWORD x)).d2,
        d2 := (u32_bytes (toDWORD x)).d1, d3 := (u32_bytes (toDWORD x)).d0 })
      = bytes_u32
      { d0 := (u32_bytes (toDWORD x)).d3, d1 := (u32_bytes (toDWORD x)).d2,
        d2 := (u32_bytes (toDWORD x)).d1, d3 := (u32_bytes (toDWORD x)).d0 } :=
    Nat.mod_eq_of_lt hlt
  rw [hd, hb]
  exact bytes_u32_u32_bytes (toDWORD x) hx

/-- Masking with `0xFF00` keeps the second byte in place. -/
theorem and_0xFF00 (x : Nat) : x &&& 0xFF00 = x / 256 % 256 * 256 := by
  apply Nat.eq_of_testBit_eq
  intro i
  have h1 : (0xFF00 : Nat) = (2 ^ 8 - 1) <<< 8 := by decide
  have h2 : x / 256 % 256 * 256 = ((x >>> 8) % 2 ^ 8) <<< 8 := by
    rw [Nat.shiftLeft_eq, Nat.shiftRight_eq_div_pow]
    norm_num
  rw [h2, h1, Nat.testBit_and, Nat.testBit_shiftLeft, Nat.testBit_shiftLeft,
    Nat.testBit_two_pow_sub_one, Nat.testBit_mod_two_pow, Nat.testBit_shiftRight]
  by_cases h : 8 ≤ i
  · have h3 : 8 + (i - 8) = i := by omega
    rw [h3]
    cases x.testBit i <;> simp
  · simp [h]

/-- The shift-and-mask expression for the byte swap, as arithmetic on the four
bytes of a 32-bit value. -/
theorem swap_expression_eq (x : Nat) (hx : x < 2 ^ 32) :
    ((x &&& 0xFF) <<< 24) ||| ((x &&& 0xFF00) <<< 8) ||| ((x >>> 8) &&& 0xFF00) ||| (x >>> 24)
      = x / 16777216 % 256 + 256 * (x / 65536 % 256) + 65536 * (x / 256 % 256)
          + 16777216 * (x % 256) := by
  have hA : (x &&& 0xFF) <<< 24 = 2 ^ 24 * (x % 256) := by
    have h : (0xFF : Nat) = 2 ^ 8 - 1 := by decide
    rw [h, Nat.and_pow_two_sub_one_eq_mod, Nat.shiftLeft_eq, Nat.mul_comm]
  have hB : (x &&& 0xFF00) <<< 8 = 2 ^ 16 * (x / 256 % 256) := by
    rw [and_0xFF00, Nat.shiftLeft_eq]
    omega
  have hC : (x >>> 8) &&& 0xFF00 = 2 ^ 8 * (x / 65536 % 256) := by
    rw [and_0xFF00, Nat.shiftRight_eq_div_pow]
    omega
  have hD : x >>> 24 = x / 16777216 := by
    rw [Nat.shiftRight_eq_div_pow]
  rw [hA, hB, hC, hD, Nat.or_assoc, Nat.or_assoc]
  have hD8 : x / 16777216 < 2 ^ 8 := by omega
  rw [← Nat.mul_add_lt_is_or hD8]
  have hCD : 2 ^ 8 * (x / 65536 % 256) + x / 16777216 < 2 ^ 16 := by omega
  rw [← Nat.mul_add_lt_is_or hCD]
  have hBCD : 2 ^ 16 * (x / 256 % 256) + (2 ^ 8 * (x / 65536 % 256) + x / 16777216) < 2 ^ 24 := by
    omega
  rw [← Nat.mul_add_lt_is_or hBCD]
  omega

/-! ## Lemmas on single invocations -/

theorem NTPUDPServer_answer (c : Platform) (e : Env) (s : ServerState)
    (hs : s.SNTPState = .SM_NTP_UDP_ANSWER) :
    NTPUDPServer c e s = caseAnswer e { s with delayShift := e.gps_msDelay } := by
  simp only [NTPUDPServer, hs]

theorem NTPUDPServer_listening (c : Platform) (e : Env) (s : ServerState)
    (hs : s.SNTPState = .SM_NTP_UDP_LISTENING) :
    NTPUDPServer c e s = caseListening e { s with delayShift := e.gps_msDelay } := by
  simp only [NTPUDPServer, hs]

theorem NTPUDPServer_bind (c : Platform) (e : Env) (s : ServerState)
    (hs : s.SNTPState = .SM_NTP_UDP_BIND) :
    NTPUDPServer c e s = caseBind c e { s with delayShift := e.gps_msDelay } := by
  simp only [NTPUDPServer, hs]

theorem NTPUDPServer_create (c : Platform) (e : Env) (s : ServerState)
    (hs : s.SNTPState = .SM_NTP_CREATE_SOCKET) :
    NTPUDPServer c e s = caseCreateSocket c e { s with delayShift := e.gps_msDelay } := by
  simp only [NTPUDPServer, hs]

/-- The calls of a CREATE_SOCKET invocation. -/
theorem caseCreateSocket_calls (c : Platform) (e : Env) (s : ServerState) :
    (caseCreateSocket c e s).2 = [Call.socket e.socket_ret] := by
  unfold caseCreateSocket
  dsimp only
  split <;> rfl

/-- LISTENING, endpoint no longer open (lines 213-216). -/
theorem caseListening_closed (e : Env) (s : ServerState)
    (hopen : e.UDPIsOpened_ret = false) :
    caseListening e s =
      ({ s with SNTPState := .SM_NTP_CREATE_SOCKET },
       [Call.UDPIsOpened s.bsdUdpServerSocket e.UDPIsOpened_ret]) := by
  unfold caseListening
  rw [if_pos hopen]

/-- LISTENING, endpoint open, configured address changed (lines 218-222). -/
theorem caseListening_changed (e : Env) (s : ServerState)
    (hopen : e.UDPIsOpened_ret = true)
    (haddr : s.currentlyActiveIP ≠ e.ntpsLastKnownIP) :
    caseListening e s =
      ({ s with SNTPState := .SM_NTP_CREATE_SOCKET },
       [Call.UDPIsOpened s.bsdUdpServerSocket e.UDPIsOpened_ret,
        Call.closesocket s.bsdUdpServerSocket]) := by
  unfold caseListening
  have h1 : ¬ (e.UDPIsOpened_ret = false) := by rw [hopen]; decide
  rw [if_neg h1, if_pos haddr]

/-- LISTENING, endpoint open, address unchanged, `recvfrom` returns 0. -/
theorem caseListening_empty (e : Env) (s : ServerState)
    (hopen : e.UDPIsOpened_ret = true)
    (haddr : s.currentlyActiveIP = e.ntpsLastKnownIP)
    (hret : e.recvfrom_ret = 0) :
    caseListening e s =
      ({ s with rxInfo := e.recvfrom_ret },
       [Call.UDPIsOpened s.bsdUdpServerSocket e.UDPIsOpened_ret,
        Call.recvfrom s.bsdUdpServerSocket e.recvfrom_ret]) := by
  unfold caseListening
  have h1 : ¬ (e.UDPIsOpened_ret = false) := by rw [hopen]; decide
  have h2 : ¬ (s.currentlyActiveIP ≠ e.ntpsLastKnownIP) := fun h => h haddr
  rw [if_neg h1, if_neg h2]
  have h3 : recvfromCall e s = { s with rxInfo := e.recvfrom_ret } := by
    unfold recvfromCall
    rw [if_pos hret]
  dsimp only
  rw [h3]
  have h4 : ¬ (({ s with rxInfo := e.recvfrom_ret } : ServerState).rxInfo ≠ 0) :=
    fun h => h hret
  rw [if_neg h4]

/-- LISTENING, endpoint open, address unchanged, `recvfrom` returns a non-zero
value (lines 225-239). -/
theorem caseListening_receipt (e : Env) (s : ServerState)
    (hopen : e.UDPIsOpened_ret = true)
    (haddr : s.currentlyActiveIP = e.ntpsLastKnownIP)
    (hret : e.recvfrom_ret ≠ 0) :
    caseListening e s =
      ({ s with
          pktRx := { e.recvfrom_buf with
            recv_ts_secs := ntp_read_u32 s.actualNTPTime
            recv_ts_fraq := toDWORD e.fractionRef }
          udpaddr := e.recvfrom_src
          addrlen := e.recvfrom_fromlen
          rxInfo := e.recvfrom_ret
          originFraction := toLONG (toDWORD e.TickGet_ret)
          SNTPState := .SM_NTP_UDP_ANSWER },
       [Call.UDPIsOpened s.bsdUdpServerSocket e.UDPIsOpened_ret,
        Call.recvfrom s.bsdUdpServerSocket e.recvfrom_ret,
        Call.TickGet e.TickGet_ret]) := by
  unfold caseListening
  have h1 : ¬ (e.UDPIsOpened_ret = false) := by rw [hopen]; decide
  have h2 : ¬ (s.currentlyActiveIP ≠ e.ntpsLastKnownIP) := fun h => h haddr
  rw [if_neg h1, if_neg h2]
  have h3 : recvfromCall e s =
      { s with
        pktRx := e.recvfrom_buf
        udpaddr := e.recvfrom_src
        addrlen := e.recvfrom_fromlen
        rxInfo := e.recvfrom_ret } := by
    unfold recvfromCall
    rw [if_neg hret]
  dsimp only
  rw [h3]
  have h4 : ({ s with
        pktRx := e.recvfrom_buf
        udpaddr := e.recvfrom_src
        addrlen := e.recvfrom_fromlen
        rxInfo := e.recvfrom_ret } : ServerState).rxInfo ≠ 0 := hret
  rw [if_pos h4]
  rfl

/-- An ANSWER invocation hands exactly one packet to `sendto`: the reply built
from the statics at entry. -/
theorem answer_sentPackets (c : Platform) (e : Env) (s : ServerState)
    (hs : s.SNTPState = .SM_NTP_UDP_ANSWER) :
    sentPackets (NTPUDPServer c e s).2 = [buildReply e s] := by
  rw [NTPUDPServer_answer c e s hs]
  unfold caseAnswer
  split <;> rfl

/-- The reply does not depend on `delayShift`, the only static written before
the switch. -/
theorem buildReply_delayShift (e : Env) (s : ServerState) (d : Nat) :
    buildReply e { s with delayShift := d } = buildReply e s := rfl

/-- The statics after an ANSWER invocation whose `sendto` did not return a
positive value: only `delayShift`, `pkt` and `transmitFraction` are written. -/
theorem answer_failed_send (c : Platform) (e : Env) (s : ServerState)
    (hs : s.SNTPState = .SM_NTP_UDP_ANSWER) (hf : ¬ e.sendto_ret > 0) :
    (NTPUDPServer c e s).1 =
      { s with
        delayShift := e.gps_msDelay
        pkt := buildReply e s
        transmitFraction := toLONG (toDWORD e.TickGet_ret) } := by
  rw [NTPUDPServer_answer c e s hs]
  unfold caseAnswer
  rw [if_neg hf]
  rfl

/-- The statics after an ANSWER invocation whose `sendto` returned a positive
value. -/
theorem answer_good_send (c : Platform) (e : Env) (s : ServerState)
    (hs : s.SNTPState = .SM_NTP_UDP_ANSWER) (hf : e.sendto_ret > 0) :
    (NTPUDPServer c e s).1 =
      { s with
        delayShift := e.gps_msDelay
        pkt := buildReply e s
        transmitFraction := toLONG (toDWORD e.TickGet_ret)
        dwTimer := toDWORD e.TickGet_ret2
        SNTPState := .SM_NTP_UDP_LISTENING } := by
  rw [NTPUDPServer_answer c e s hs]
  unfold caseAnswer
  rw [if_pos hf]
  rfl

/-- The statics and calls of a LISTENING invocation in which the endpoint is
open, the address is unchanged and `recvfrom` returns a non-zero value. -/
theorem listening_receipt (c : Platform) (e : Env) (s : ServerState)
    (hs : s.SNTPState = .SM_NTP_UDP_LISTENING) (hopen : e.UDPIsOpened_ret = true)
    (haddr : s.currentlyActiveIP = e.ntpsLastKnownIP) (hret : e.recvfrom_ret ≠ 0) :
    NTPUDPServer c e s =
      ({ s with
          delayShift := e.gps_msDelay
          pktRx := { e.recvfrom_buf with
            recv_ts_secs := ntp_read_u32 s.actualNTPTime
            recv_ts_fraq := toDWORD e.fractionRef }
          udpaddr := e.recvfrom_src
          addrlen := e.recvfrom_fromlen
          rxInfo := e.recvfrom_ret
          originFraction := toLONG (toDWORD e.TickGet_ret)
          SNTPState := .SM_NTP_UDP_ANSWER },
       [Call.UDPIsOpened s.bsdUdpServerSocket e.UDPIsOpened_ret,
        Call.recvfrom s.bsdUdpServerSocket e.recvfrom_ret,
        Call.TickGet e.TickGet_ret]) := by
  rw [NTPUDPServer_listening c e s hs,
    caseListening_receipt e { s with delayShift := e.gps_msDelay } hopen haddr hret]

/-- Failed sends keep the machine in ANSWER and leave the pending request, the
sender address, the arrival tick, the socket and `actualNTPTime` untouched. -/
theorem retries_preserve (c : Platform) (es : List Env) (s : ServerState)
    (hs : s.SNTPState = .SM_NTP_UDP_ANSWER) (hf : ∀ x ∈ es, ¬ x.sendto_ret > 0) :
    (runState c (es.map Invocation.server) s).SNTPState = .SM_NTP_UDP_ANSWER
      ∧ (runState c (es.map Invocation.server) s).pktRx = s.pktRx
      ∧ (runState c (es.map Invocation.server) s).udpaddr = s.udpaddr
      ∧ (runState c (es.map Invocation.server) s).originFraction = s.originFraction
      ∧ (runState c (es.map Invocation.server) s).actualNTPTime = s.actualNTPTime
      ∧ (runState c (es.map Invocation.server) s).bsdUdpServerSocket = s.bsdUdpServerSocket := by
  induction es generalizing s with
  | nil => exact ⟨hs, rfl, rfl, rfl, rfl, rfl⟩
  | cons x xs ih =>
    have hx : ¬ x.sendto_ret > 0 := hf x (List.mem_cons_self x xs)
    have hxs : ∀ y ∈ xs, ¬ y.sendto_ret > 0 := fun y hy => hf y (List.mem_cons_of_mem x hy)
    have hstep := answer_failed_send c x s hs hx
    simp only [List.map_cons, runState, invoke]
    rw [hstep]
    exact ih _ hs hxs

/-- An ANSWER invocation hands the packet to the address held in `udpaddr` at
entry. -/
theorem answer_sentDestinations (c : Platform) (e : Env) (s : ServerState)
    (hs : s.SNTPState = .SM_NTP_UDP_ANSWER) :
    sentDestinations (NTPUDPServer c e s).2 = [s.udpaddr] := by
  rw [NTPUDPServer_answer c e s hs]
  unfold caseAnswer
  split <;> rfl

/-- The statics that matter for the reply, after a receipt in LISTENING followed
by any number of failed sends. -/
theorem pending_after_retries (c : Platform) (s : ServerState) (e : Env)
    (retries : List Env)
    (hs : s.SNTPState = .SM_NTP_UDP_LISTENING)
    (hopen : e.UDPIsOpened_ret = true)
    (haddr : s.currentlyActiveIP = e.ntpsLastKnownIP)
    (hret : e.recvfrom_ret ≠ 0)
    (hfail : ∀ x ∈ retries, ¬ x.sendto_ret > 0) :
    (runState c (retries.map Invocation.server) (NTPUDPServer c e s).1).SNTPState
        = .SM_NTP_UDP_ANSWER
      ∧ (runState c (retries.map Invocation.server) (NTPUDPServer c e s).1).pktRx
        = { e.recvfrom_buf with
            recv_ts_secs := ntp_read_u32 s.actualNTPTime
            recv_ts_fraq := toDWORD e.fractionRef }
      ∧ (runState c (retries.map Invocation.server) (NTPUDPServer c e s).1).udpaddr
        = e.recvfrom_src
      ∧ (runState c (retries.map Invocation.server) (NTPUDPServer c e s).1).originFraction
        = toLONG (toDWORD e.TickGet_ret)
      ∧ (runState c (retries.map Invocation.server) (NTPUDPServer c e s).1).actualNTPTime
        = s.actualNTPTime := by
  have hl := listening_receipt c e s hs hopen haddr hret
  have hans : (NTPUDPServer c e s).1.SNTPState = .SM_NTP_UDP_ANSWER := by rw [hl]
  obtain ⟨h1, h2, h3, h4, h5, -⟩ :=
    retries_preserve c retries (NTPUDPServer c e s).1 hans hfail
  refine ⟨h1, ?_, ?_, ?_, ?_⟩
  · rw [h2, hl]
  · rw [h3, hl]
  · rw [h4, hl]
  · rw [h5, hl]

/-- No LISTENING invocation writes `actualNTPTime`. -/
theorem caseListening_actualNTPTime (e : Env) (s : ServerState) :
    (caseListening e s).1.actualNTPTime = s.actualNTPTime := by
  by_cases hopen : e.UDPIsOpened_ret = true
  · by_cases haddr : s.currentlyActiveIP = e.ntpsLastKnownIP
    · by_cases hret : e.recvfrom_ret = 0
      · rw [caseListening_empty e s hopen haddr hret]
      · rw [caseListening_receipt e s hopen haddr hret]
    · rw [caseListening_changed e s hopen haddr]
  · have hclosed : e.UDPIsOpened_ret = false := by
      cases hb : e.UDPIsOpened_ret
      · rfl
      · exact absurd hb hopen
    rw [caseListening_closed e s hclosed]

/-- No invocation writes `actualNTPTime`: the function-static of line 152 is
read in three places and assigned nowhere. -/
theorem invoke_actualNTPTime (c : Platform) (i : Invocation) (s : ServerState) :
    (invoke c i s).1.actualNTPTime = s.actualNTPTime := by
  cases i with
  | restart => rfl
  | server e =>
    show (NTPUDPServer c e s).1.actualNTPTime = s.actualNTPTime
    cases hst : s.SNTPState with
    | SM_NTP_CREATE_SOCKET =>
      rw [NTPUDPServer_create c e s hst]
      unfold caseCreateSocket
      dsimp only
      split <;> rfl
    | SM_NTP_UDP_BIND =>
      rw [NTPUDPServer_bind c e s hst]
      unfold caseBind
      dsimp only
      split
      · rfl
      · split <;> rfl
    | SM_NTP_UDP_LISTENING =>
      rw [NTPUDPServer_listening c e s hst, caseListening_actualNTPTime]
    | SM_NTP_UDP_ANSWER =>
      by_cases hf : e.sendto_ret > 0
      · rw [answer_good_send c e s hst hf]
      · rw [answer_failed_send c e s hst hf]

/-- In every state reached from the initial statics, `actualNTPTime` is 0. -/
theorem reachable_actualNTPTime (c : Platform) (is : List Invocation) :
    ∀ s : ServerState, (runState c is s).actualNTPTime = s.actualNTPTime := by
  induction is with
  | nil => intro s; rfl
  | cons i is ih =>
    intro s
    show (runState c is (invoke c i s).1).actualNTPTime = s.actualNTPTime
    rw [ih, invoke_actualNTPTime]

/-- While `actualNTPTime` is 0, no invocation makes the receive seconds of the
stored request non-zero: the only assignment to them is line 232. -/
theorem invoke_recv_secs (c : Platform) (i : Invocation) (s : ServerState)
    (h0 : s.actualNTPTime = 0) (h1 : s.pktRx.recv_ts_secs = 0) :
    (invoke c i s).1.pktRx.recv_ts_secs = 0 := by
  cases i with
  | restart => exact h1
  | server e =>
    show (NTPUDPServer c e s).1.pktRx.recv_ts_secs = 0
    cases hst : s.SNTPState with
    | SM_NTP_CREATE_SOCKET =>
      rw [NTPUDPServer_create c e s hst]
      unfold caseCreateSocket
      dsimp only
      split <;> exact h1
    | SM_NTP_UDP_BIND =>
      rw [NTPUDPServer_bind c e s hst]
      unfold caseBind
      dsimp only
      split
      · exact h1
      · split <;> exact h1
    | SM_NTP_UDP_LISTENING =>
      rw [NTPUDPServer_listening c e s hst]
      by_cases hopen : e.UDPIsOpened_ret = true
      · by_cases haddr : s.currentlyActiveIP = e.ntpsLastKnownIP
        · by_cases hret : e.recvfrom_ret = 0
          · rw [caseListening_empty e { s with delayShift := e.gps_msDelay } hopen haddr hret]
            exact h1
          · rw [caseListening_receipt e { s with delayShift := e.gps_msDelay } hopen haddr hret]
            show ntp_read_u32 s.actualNTPTime = 0
            rw [h0]
            rfl
        · rw [caseListening_changed e { s with delayShift := e.gps_msDelay } hopen haddr]
          exact h1
      · have hclosed : e.UDPIsOpened_ret = false := by
          cases hb : e.UDPIsOpened_ret
          · rfl
          · exact absurd hb hopen
        rw [caseListening_closed e { s with delayShift := e.gps_msDelay } hclosed]
        exact h1
    | SM_NTP_UDP_ANSWER =>
      by_cases hf : e.sendto_ret > 0
      · rw [answer_good_send c e s hst hf]
        exact h1
      · rw [answer_failed_send c e s hst hf]
        exact h1

/-- In every state reached from statics with `actualNTPTime = 0` and zero
receive seconds, the receive seconds of the stored request are 0. -/
theorem reachable_recv_secs (c : Platform) (is : List Invocation) :
    ∀ s : ServerState, s.actualNTPTime = 0 → s.pktRx.recv_ts_secs = 0 →
      (runState c is s).pktRx.recv_ts_secs = 0 := by
  induction is with
  | nil => intro s _ h1; exact h1
  | cons i is ih =>
    intro s h0 h1
    show (runState c is (invoke c i s).1).pktRx.recv_ts_secs = 0
    exact ih _ (by rw [invoke_actualNTPTime]; exact h0) (invoke_recv_secs c i s h0 h1)

/-! ## Lemmas on the root delay arithmetic -/

/-- The C remainder by 1000 lies strictly between -1000 and 1000. -/
theorem tmod_1000_bounds (x : Int) : -1000 < x.tmod 1000 ∧ x.tmod 1000 < 1000 := by
  cases x with
  | ofNat n =>
    have h : Int.tmod (Int.ofNat n) 1000 = ((n % 1000 : Nat) : Int) := rfl
    rw [h]
    omega
  | negSucc n =>
    have h : Int.tmod (Int.negSucc n) 1000 = -(((n + 1) % 1000 : Nat) : Int) := rfl
    rw [h]
    omega

/-- A value that fits a `SHORT` is stored unchanged. -/
theorem toSHORT_of_fits (v : Int) (h1 : -32768 ≤ v) (h2 : v < 32768) : toSHORT v = v := by
  unfold toSHORT
  split <;> omega

/-- A value that fits a `LONG` is stored unchanged. -/
theorem toLONG_of_fits (v : Int) (h1 : -2147483648 ≤ v) (h2 : v < 2147483648) :
    toLONG v = v := by
  unfold toLONG
  split <;> omega

/-- A `LONG` is in the 32-bit signed range. -/
theorem toLONG_range (v : Int) : -2147483648 ≤ toLONG v ∧ toLONG v < 2147483648 := by
  unfold toLONG
  split <;> omega

/-- Conversion to `LONG` only depends on the value modulo `2^32`. -/
theorem toLONG_congr (v w : Int) (h : v % 4294967296 = w % 4294967296) :
    toLONG v = toLONG w := by
  unfold toLONG
  rw [h]

/-- The word stored in `root_delay.delay_fraq`: the C remainder by 1000 of the
`LONG` difference, which fits the `SHORT` field. -/
theorem buildReply_delay_fraq (e : Env) (s : ServerState) :
    (buildReply e s).root_delay.delay_fraq
      = (toLONG (toLONG (toDWORD e.TickGet_ret) - s.originFraction)).tmod 1000 := by
  have h : (buildReply e s).root_delay.delay_fraq
      = toSHORT ((toLONG (toLONG (toDWORD e.TickGet_ret) - s.originFraction)).tmod 1000) := by
    unfold buildReply
    simp only [Id.run, pure, bind]
  obtain ⟨h1, h2⟩ := tmod_1000_bounds (toLONG (toLONG (toDWORD e.TickGet_ret) - s.originFraction))
  rw [h, toSHORT_of_fits _ (by omega) (by omega)]

/-- Without wrap-around the `LONG` difference of two tick values is their
difference: for 32-bit ticks `a ≤ b` less than `2^31` apart. -/
theorem toLONG_tick_difference (a b : Nat) (ha : a < 4294967296) (hb : b < 4294967296)
    (hab : a ≤ b) (hd : b - a < 2147483648) :
    toLONG (toLONG (b : Int) - toLONG (a : Int)) = ((b - a : Nat) : Int) := by
  have h1 : toLONG (toLONG (b : Int) - toLONG (a : Int)) = toLONG ((b : Int) - (a : Int)) := by
    apply toLONG_congr
    unfold toLONG
    split <;> split <;> omega
  rw [h1, toLONG_of_fits _ (by omega) (by omega)]
  omega

/-- The reply, field by field: of the statics it uses `actualNTPTime`,
`originFraction` and four words of `pktRx`. -/
theorem buildReply_eq (e : Env) (s : ServerState) :
    buildReply e s =
      { flags := { mode := 4, versionNumber := 3, leapIndicator := leapIndicatorOf e.flagsRow7 }
        stratum := 1
        poll := 6
        precision := -9
        root_delay :=
          { delay_secs := 0
            delay_fraq := toSHORT ((toLONG (toLONG (toDWORD e.TickGet_ret)
              - s.originFraction)).tmod 1000) }
        root_dispersion :=
          { dispersion_secs := 0
            dispersion_fraq := toSHORT (((0x11 / 16 % 100 : Nat) : Int)) }
        ref_identifier :=
          { firstLetter := 0x47, secondLetter := 0x50, thirdLetter := 0x53, otherbytes := 0x00 }
        ref_ts_secs := ntp_read_u32 s.actualNTPTime
        ref_ts_fraq := toDWORD e.fractionRef
        orig_ts_secs := s.pktRx.tx_ts_secs
        orig_ts_fraq := s.pktRx.tx_ts_fraq
        recv_ts_secs := s.pktRx.recv_ts_secs
        recv_ts_fraq := s.pktRx.recv_ts_fraq
        tx_ts_secs := ntp_read_u32 s.actualNTPTime
        tx_ts_fraq := toDWORD e.fractionTx } := by
  unfold buildReply zeroPacket
  simp only [Id.run, pure, bind]

/-- The three-way test of the source as one condition: 0 when GPS-locked or
manually set, 3 otherwise. -/
theorem leapIndicatorOf_eq (f : ClockFlags) :
    leapIndicatorOf f =
      if (f.gpsIsEnabled = 1 ∧ f.gpsLastSyncFail = false) ∨ f.isClockManual = true
      then 0 else 3 := by
  unfold leapIndicatorOf
  by_cases h1 : f.gpsIsEnabled = 1 ∧ f.gpsLastSyncFail = false
  · rw [if_pos h1, if_pos (Or.inl h1)]
  · by_cases h2 : f.isClockManual = true
    · rw [if_neg h1, if_pos h2, if_pos (Or.inr h2)]
    · rw [if_neg h1, if_neg h2, if_neg (fun h => h.elim h1 h2)]

/-! ## The claims -/

/-- C1: for every 32-bit unsigned value `x`, applying `ntp_read_u32` twice
gives `x` back. -/
theorem C1_ntp_read_u32_involutive (x : Nat) (hx : x < 2 ^ 32) :
    ntp_read_u32 (ntp_read_u32 x) = x := by
  rw [ntp_read_u32_twice]
  exact Nat.mod_eq_of_lt hx

theorem C1_ntp_read_u32_involutive_witness :
    (0x12345678 : Nat) < 2 ^ 32 ∧ ntp_read_u32 (ntp_read_u32 0x12345678) = 0x12345678 :=
  ⟨by norm_num, C1_ntp_read_u32_involutive 0x12345678 (by norm_num)⟩

/-- C2: when a LISTENING invocation (endpoint open, address unchanged) receives a
datagram (`recvfrom` returns a non-zero value) and stores the request
`e.recvfrom_buf`, then after any number of ANSWER invocations whose send failed,
with arbitrary clock flags and ticks, the machine is in ANSWER and the next
invocation, whatever its own clock flags, ticks and send outcome, passes exactly
one reply to `sendto`; that reply carries the request's transmit timestamp words
unchanged in `orig_ts_secs` and `orig_ts_fraq`. -/
theorem C2_reply_echoes_origin (c : Platform) (s : ServerState) (e : Env)
    (retries : List Env) (e' : Env)
    (hs : s.SNTPState = .SM_NTP_UDP_LISTENING)
    (hopen : e.UDPIsOpened_ret = true)
    (haddr : s.currentlyActiveIP = e.ntpsLastKnownIP)
    (hret : e.recvfrom_ret ≠ 0)
    (hfail : ∀ x ∈ retries, ¬ x.sendto_ret > 0) :
    (runState c (retries.map Invocation.server) (NTPUDPServer c e s).1).SNTPState
        = .SM_NTP_UDP_ANSWER
      ∧ ∃ p, sentPackets
          (NTPUDPServer c e' (runState c (retries.map Invocation.server)
            (NTPUDPServer c e s).1)).2 = [p]
        ∧ p.orig_ts_secs = e.recvfrom_buf.tx_ts_secs
        ∧ p.orig_ts_fraq = e.recvfrom_buf.tx_ts_fraq := by
  have hl := listening_receipt c e s hs hopen haddr hret
  have hans : (NTPUDPServer c e s).1.SNTPState = .SM_NTP_UDP_ANSWER := by rw [hl]
  have hrx : (NTPUDPServer c e s).1.pktRx =
      { e.recvfrom_buf with
        recv_ts_secs := ntp_read_u32 s.actualNTPTime
        recv_ts_fraq := toDWORD e.fractionRef } := by rw [hl]
  obtain ⟨h1, h2, -, -, -, -⟩ := retries_preserve c retries (NTPUDPServer c e s).1 hans hfail
  refine ⟨h1, buildReply e' _, answer_sentPackets c e' _ h1, ?_, ?_⟩
  · show (runState c (retries.map Invocation.server) (NTPUDPServer c e s).1).pktRx.tx_ts_secs = _
    rw [h2, hrx]
  · show (runState c (retries.map Invocation.server) (NTPUDPServer c e s).1).pktRx.tx_ts_fraq = _
    rw [h2, hrx]

theorem C2_reply_echoes_origin_witness :
    ∃ p, sentPackets
        (NTPUDPServer examplePlatform exampleEnv
          (runState examplePlatform
            ([{ sendFailsEnv with flagsRow7 := unsynchronized }].map Invocation.server)
            (NTPUDPServer examplePlatform exampleEnv
              (exampleState .SM_NTP_UDP_LISTENING)).1)).2 = [p]
      ∧ p.orig_ts_secs = 1000 ∧ p.orig_ts_fraq = 500 :=
  (C2_reply_echoes_origin examplePlatform (exampleState .SM_NTP_UDP_LISTENING) exampleEnv
    [{ sendFailsEnv with flagsRow7 := unsynchronized }] exampleEnv
    rfl rfl rfl (by decide) (by decide)).2

/-- C3: every reply handed to `sendto` by an ANSWER invocation has `mode = 4`,
`versionNumber = 3`, `stratum = 1`, `poll = 6`, `precision = -9` and reference
identifier bytes `0x47 0x50 0x53 0x00`, whatever the stored request (in
particular its mode) and the clock state. -/
theorem C3_reply_fixed_fields (c : Platform) (e : Env) (s : ServerState)
    (hs : s.SNTPState = .SM_NTP_UDP_ANSWER) :
    ∃ p, sentPackets (NTPUDPServer c e s).2 = [p]
      ∧ p.flags.mode = 4 ∧ p.flags.versionNumber = 3 ∧ p.stratum = 1
      ∧ p.poll = 6 ∧ p.precision = -9
      ∧ p.ref_identifier.firstLetter = 0x47 ∧ p.ref_identifier.secondLetter = 0x50
      ∧ p.ref_identifier.thirdLetter = 0x53 ∧ p.ref_identifier.otherbytes = 0x00 :=
  ⟨buildReply e s, answer_sentPackets c e s hs, rfl, rfl, rfl, rfl, rfl, rfl, rfl, rfl, rfl⟩

theorem C3_reply_fixed_fields_witness :
    ∃ p, sentPackets (NTPUDPServer examplePlatform exampleEnv
        { exampleState .SM_NTP_UDP_ANSWER with pktRx := exampleRequest }).2 = [p]
      ∧ p.flags.mode = 4 ∧ p.flags.versionNumber = 3 ∧ p.stratum = 1
      ∧ p.poll = 6 ∧ p.precision = -9
      ∧ p.ref_identifier.firstLetter = 0x47 ∧ p.ref_identifier.secondLetter = 0x50
      ∧ p.ref_identifier.thirdLetter = 0x53 ∧ p.ref_identifier.otherbytes = 0x00 :=
  C3_reply_fixed_fields examplePlatform exampleEnv
    { exampleState .SM_NTP_UDP_ANSWER with pktRx := exampleRequest } rfl

/-- C4: in the reply handed to `sendto` by an ANSWER invocation, `leapIndicator`
is 0 when, at the last of the three reads of the clock flags (the one of lines
322-328), the clock is GPS-locked (`AppConfig.gpsIsEnabled == 1` and
`gpsLastSyncFail` false) or manually synchronised (`isClockManual` true), and is
3 otherwise; it is never 1 or 2. -/
theorem C4_leap_indicator (c : Platform) (e : Env) (s : ServerState)
    (hs : s.SNTPState = .SM_NTP_UDP_ANSWER) :
    ∃ p, sentPackets (NTPUDPServer c e s).2 = [p]
      ∧ ((e.flagsRow7.gpsIsEnabled = 1 ∧ e.flagsRow7.gpsLastSyncFail = false)
            ∨ e.flagsRow7.isClockManual = true → p.flags.leapIndicator = 0)
      ∧ (¬ ((e.flagsRow7.gpsIsEnabled = 1 ∧ e.flagsRow7.gpsLastSyncFail = false)
            ∨ e.flagsRow7.isClockManual = true) → p.flags.leapIndicator = 3)
      ∧ p.flags.leapIndicator ≠ 1 ∧ p.flags.leapIndicator ≠ 2 := by
  have hl : (buildReply e s).flags.leapIndicator = leapIndicatorOf e.flagsRow7 := rfl
  refine ⟨buildReply e s, answer_sentPackets c e s hs, ?_, ?_, ?_, ?_⟩
  · intro h
    rw [hl, leapIndicatorOf_eq, if_pos h]
  · intro h
    rw [hl, leapIndicatorOf_eq, if_neg h]
  · rw [hl, leapIndicatorOf_eq]
    split <;> decide
  · rw [hl, leapIndicatorOf_eq]
    split <;> decide

theorem C4_leap_indicator_witness :
    ∃ p, sentPackets (NTPUDPServer examplePlatform
        { exampleEnv with flagsRow7 := unsynchronized }
        (exampleState .SM_NTP_UDP_ANSWER)).2 = [p]
      ∧ ((unsynchronized.gpsIsEnabled = 1 ∧ unsynchronized.gpsLastSyncFail = false)
            ∨ unsynchronized.isClockManual = true → p.flags.leapIndicator = 0)
      ∧ (¬ ((unsynchronized.gpsIsEnabled = 1 ∧ unsynchronized.gpsLastSyncFail = false)
            ∨ unsynchronized.isClockManual = true) → p.flags.leapIndicator = 3)
      ∧ p.flags.leapIndicator ≠ 1 ∧ p.flags.leapIndicator ≠ 2 :=
  C4_leap_indicator examplePlatform { exampleEnv with flagsRow7 := unsynchronized }
    (exampleState .SM_NTP_UDP_ANSWER) rfl

/-- C5, as stated, fails: with the endpoint open, the address unchanged and a
47-byte datagram (`recvfrom` returns 47, not 48), the state after the LISTENING
invocation is ANSWER, not LISTENING, and the following invocation hands a reply
to `sendto`. -/
theorem C5_short_datagram_counterexample :
    (exampleState .SM_NTP_UDP_LISTENING).SNTPState = .SM_NTP_UDP_LISTENING
      ∧ shortDatagramEnv.UDPIsOpened_ret = true
      ∧ (exampleState .SM_NTP_UDP_LISTENING).currentlyActiveIP = shortDatagramEnv.ntpsLastKnownIP
      ∧ shortDatagramEnv.recvfrom_ret = 47
      ∧ (NTPUDPServer examplePlatform shortDatagramEnv
          (exampleState .SM_NTP_UDP_LISTENING)).1.SNTPState = .SM_NTP_UDP_ANSWER
      ∧ (NTPUDPServer examplePlatform shortDatagramEnv
          (exampleState .SM_NTP_UDP_LISTENING)).1.SNTPState ≠ .SM_NTP_UDP_LISTENING
      ∧ (sentPackets (NTPUDPServer examplePlatform exampleEnv
          (NTPUDPServer examplePlatform shortDatagramEnv
            (exampleState .SM_NTP_UDP_LISTENING)).1).2).length = 1 := by
  refine ⟨rfl, rfl, rfl, rfl, ?_, ?_, ?_⟩
  · rfl
  · decide
  · rfl

/-- C5, amended: in a LISTENING invocation with the endpoint open and the
address unchanged, a received datagram whose length is not 48 bytes (`recvfrom`
returns a positive value other than 48) is not rejected.  No send is performed in
that invocation, the state after it is ANSWER, and the next invocation hands
exactly one reply to `sendto`, built from the stored datagram like any other. -/
theorem C5_length_not_checked (c : Platform) (e e' : Env) (s : ServerState)
    (hs : s.SNTPState = .SM_NTP_UDP_LISTENING)
    (hopen : e.UDPIsOpened_ret = true)
    (haddr : s.currentlyActiveIP = e.ntpsLastKnownIP)
    (hpos : 0 < e.recvfrom_ret)
    (_hlen : e.recvfrom_ret ≠ 48) :
    (∀ call ∈ (NTPUDPServer c e s).2, call.isSend = false)
      ∧ (NTPUDPServer c e s).1.SNTPState = .SM_NTP_UDP_ANSWER
      ∧ (NTPUDPServer c e s).1.pktRx.tx_ts_secs = e.recvfrom_buf.tx_ts_secs
      ∧ (NTPUDPServer c e s).1.pktRx.tx_ts_fraq = e.recvfrom_buf.tx_ts_fraq
      ∧ sentPackets (NTPUDPServer c e' (NTPUDPServer c e s).1).2
          = [buildReply e' (NTPUDPServer c e s).1] := by
  have hret : e.recvfrom_ret ≠ 0 := fun h0 => by rw [h0] at hpos; exact absurd hpos (by decide)
  have hl := listening_receipt c e s hs hopen haddr hret
  have hans : (NTPUDPServer c e s).1.SNTPState = .SM_NTP_UDP_ANSWER := by rw [hl]
  refine ⟨?_, hans, ?_, ?_, answer_sentPackets c e' _ hans⟩
  · intro call hcall
    rw [hl] at hcall
    simp only [List.mem_cons, List.mem_singleton, List.not_mem_nil, or_false] at hcall
    rcases hcall with h | h | h <;> rw [h] <;> rfl
  · rw [hl]
  · rw [hl]

theorem C5_length_not_checked_witness :
    (∀ call ∈ (NTPUDPServer examplePlatform shortDatagramEnv
        (exampleState .SM_NTP_UDP_LISTENING)).2, call.isSend = false)
      ∧ (NTPUDPServer examplePlatform shortDatagramEnv
          (exampleState .SM_NTP_UDP_LISTENING)).1.SNTPState = .SM_NTP_UDP_ANSWER
      ∧ (NTPUDPServer examplePlatform shortDatagramEnv
          (exampleState .SM_NTP_UDP_LISTENING)).1.pktRx.tx_ts_secs
            = shortDatagramEnv.recvfrom_buf.tx_ts_secs
      ∧ (NTPUDPServer examplePlatform shortDatagramEnv
          (exampleState .SM_NTP_UDP_LISTENING)).1.pktRx.tx_ts_fraq
            = shortDatagramEnv.recvfrom_buf.tx_ts_fraq
      ∧ sentPackets (NTPUDPServer examplePlatform exampleEnv
          (NTPUDPServer examplePlatform shortDatagramEnv
            (exampleState .SM_NTP_UDP_LISTENING)).1).2
          = [buildReply exampleEnv (NTPUDPServer examplePlatform shortDatagramEnv
              (exampleState .SM_NTP_UDP_LISTENING)).1] :=
  C5_length_not_checked examplePlatform shortDatagramEnv exampleEnv
    (exampleState .SM_NTP_UDP_LISTENING) rfl rfl rfl (by decide) (by decide)

/-- C7 at the failing input: a BIND invocation in which `bind` returns 0 but
`ntpsLastKnownIP` differs from `currentlyActiveIP` ends in LISTENING, not in
CREATE_SOCKET; the address test of lines 198-199 sits in the `else` branch of
`bindConfirmation == 0` and is never reached on success. -/
theorem C7_bind_success_ignores_address_change :
    (exampleState .SM_NTP_UDP_BIND).SNTPState = .SM_NTP_UDP_BIND
      ∧ addressChangedEnv.bind_ret = 0
      ∧ (exampleState .SM_NTP_UDP_BIND).currentlyActiveIP ≠ addressChangedEnv.ntpsLastKnownIP
      ∧ (NTPUDPServer examplePlatform addressChangedEnv
          (exampleState .SM_NTP_UDP_BIND)).1.SNTPState = .SM_NTP_UDP_LISTENING := by
  refine ⟨rfl, rfl, ?_, rfl⟩
  decide

/-- C8: a LISTENING invocation in which the configured address differs from the
recorded one, or in which the endpoint is no longer open, ends in
CREATE_SOCKET; it calls neither `recvfrom` nor `sendto` and leaves the request
buffer and the sender address as they were, whatever `recvfrom` would have
delivered. -/
theorem C8_listening_restart (c : Platform) (e : Env) (s : ServerState)
    (hs : s.SNTPState = .SM_NTP_UDP_LISTENING)
    (h : s.currentlyActiveIP ≠ e.ntpsLastKnownIP ∨ e.UDPIsOpened_ret = false) :
    (NTPUDPServer c e s).1.SNTPState = .SM_NTP_CREATE_SOCKET
      ∧ (∀ call ∈ (NTPUDPServer c e s).2, call.isRecvfrom = false ∧ call.isSend = false)
      ∧ (NTPUDPServer c e s).1.pktRx = s.pktRx
      ∧ (NTPUDPServer c e s).1.udpaddr = s.udpaddr := by
  rw [NTPUDPServer_listening c e s hs]
  by_cases hopen : e.UDPIsOpened_ret = false
  · rw [caseListening_closed e _ hopen]
    refine ⟨rfl, ?_, rfl, rfl⟩
    intro call hcall
    rw [List.mem_singleton] at hcall
    rw [hcall]
    exact ⟨rfl, rfl⟩
  · have hopen' : e.UDPIsOpened_ret = true := by
      cases hb : e.UDPIsOpened_ret
      · exact absurd hb hopen
      · rfl
    have haddr : s.currentlyActiveIP ≠ e.ntpsLastKnownIP := h.resolve_right hopen
    rw [caseListening_changed e { s with delayShift := e.gps_msDelay } hopen' haddr]
    refine ⟨rfl, ?_, rfl, rfl⟩
    intro call hcall
    simp only [List.mem_cons, List.mem_singleton, List.not_mem_nil, or_false] at hcall
    rcases hcall with h1 | h1 <;> rw [h1] <;> exact ⟨rfl, rfl⟩

theorem C8_listening_restart_witness :
    (NTPUDPServer examplePlatform addressChangedEnv
        (exampleState .SM_NTP_UDP_LISTENING)).1.SNTPState = .SM_NTP_CREATE_SOCKET
      ∧ (∀ call ∈ (NTPUDPServer examplePlatform addressChangedEnv
            (exampleState .SM_NTP_UDP_LISTENING)).2,
          call.isRecvfrom = false ∧ call.isSend = false)
      ∧ (NTPUDPServer examplePlatform addressChangedEnv
          (exampleState .SM_NTP_UDP_LISTENING)).1.pktRx
            = (exampleState .SM_NTP_UDP_LISTENING).pktRx
      ∧ (NTPUDPServer examplePlatform addressChangedEnv
          (exampleState .SM_NTP_UDP_LISTENING)).1.udpaddr
            = (exampleState .SM_NTP_UDP_LISTENING).udpaddr :=
  C8_listening_restart examplePlatform addressChangedEnv
    (exampleState .SM_NTP_UDP_LISTENING) rfl (Or.inl (by decide))

/-- C9: in an ANSWER invocation, a successful send (`sendto` returns a positive
value) leads to LISTENING; a failed send leaves the state at ANSWER and leaves
the stored request, the sender address and the arrival tick unchanged, so that
the reply handed to `sendto` by the next invocation, whatever its environment,
has the same originate and receive timestamp words as the reply just built. -/
theorem C9_answer_transitions (c : Platform) (e : Env) (s : ServerState)
    (hs : s.SNTPState = .SM_NTP_UDP_ANSWER) :
    (e.sendto_ret > 0 → (NTPUDPServer c e s).1.SNTPState = .SM_NTP_UDP_LISTENING)
      ∧ (¬ e.sendto_ret > 0 →
          (NTPUDPServer c e s).1.SNTPState = .SM_NTP_UDP_ANSWER
            ∧ (NTPUDPServer c e s).1.pktRx = s.pktRx
            ∧ (NTPUDPServer c e s).1.udpaddr = s.udpaddr
            ∧ (NTPUDPServer c e s).1.originFraction = s.originFraction
            ∧ ∀ e' : Env, ∃ p p',
                sentPackets (NTPUDPServer c e s).2 = [p]
                  ∧ sentPackets (NTPUDPServer c e' (NTPUDPServer c e s).1).2 = [p']
                  ∧ p'.orig_ts_secs = p.orig_ts_secs ∧ p'.orig_ts_fraq = p.orig_ts_fraq
                  ∧ p'.recv_ts_secs = p.recv_ts_secs ∧ p'.recv_ts_fraq = p.recv_ts_fraq) := by
  refine ⟨?_, ?_⟩
  · intro hpos
    rw [answer_good_send c e s hs hpos]
  · intro hneg
    have hst := answer_failed_send c e s hs hneg
    have hans : (NTPUDPServer c e s).1.SNTPState = .SM_NTP_UDP_ANSWER := by
      rw [hst]; exact hs
    have hrx : (NTPUDPServer c e s).1.pktRx = s.pktRx := by rw [hst]
    refine ⟨hans, hrx, by rw [hst], by rw [hst], ?_⟩
    intro e'
    refine ⟨buildReply e s, buildReply e' (NTPUDPServer c e s).1,
      answer_sentPackets c e s hs, answer_sentPackets c e' _ hans, ?_, ?_, ?_, ?_⟩
    · show (NTPUDPServer c e s).1.pktRx.tx_ts_secs = s.pktRx.tx_ts_secs
      rw [hrx]
    · show (NTPUDPServer c e s).1.pktRx.tx_ts_fraq = s.pktRx.tx_ts_fraq
      rw [hrx]
    · show (NTPUDPServer c e s).1.pktRx.recv_ts_secs = s.pktRx.recv_ts_secs
      rw [hrx]
    · show (NTPUDPServer c e s).1.pktRx.recv_ts_fraq = s.pktRx.recv_ts_fraq
      rw [hrx]

theorem C9_answer_transitions_witness :
    (NTPUDPServer examplePlatform exampleEnv pendingState).1.SNTPState
        = .SM_NTP_UDP_LISTENING
      ∧ (NTPUDPServer examplePlatform sendFailsEnv pendingState).1.SNTPState
          = .SM_NTP_UDP_ANSWER
      ∧ (NTPUDPServer examplePlatform sendFailsEnv pendingState).1.pktRx = pendingState.pktRx
      ∧ (NTPUDPServer examplePlatform sendFailsEnv pendingState).1.udpaddr
          = pendingState.udpaddr
      ∧ (NTPUDPServer examplePlatform sendFailsEnv pendingState).1.originFraction
          = pendingState.originFraction
      ∧ ∀ e' : Env, ∃ p p',
          sentPackets (NTPUDPServer examplePlatform sendFailsEnv pendingState).2 = [p]
            ∧ sentPackets (NTPUDPServer examplePlatform e'
                (NTPUDPServer examplePlatform sendFailsEnv pendingState).1).2 = [p']
            ∧ p'.orig_ts_secs = p.orig_ts_secs ∧ p'.orig_ts_fraq = p.orig_ts_fraq
            ∧ p'.recv_ts_secs = p.recv_ts_secs ∧ p'.recv_ts_fraq = p.recv_ts_fraq :=
  ⟨(C9_answer_transitions examplePlatform exampleEnv pendingState rfl).1 (by decide),
   (C9_answer_transitions examplePlatform sendFailsEnv pendingState rfl).2 (by decide)⟩

/-- C10 at the failing input: with `arithmeticFraction = 1` the receive
fraction stamped in LISTENING and the reference, receive and transmit fractions
of the reply are all the host value 1 itself, whereas its byte-swap
`ntp_read_u32 1` is `0x01000000`; only the seconds words go through
`ntp_read_u32`. -/
theorem C10_fraction_words_not_swapped :
    (NTPUDPServer examplePlatform fractionOneEnv
        (exampleState .SM_NTP_UDP_LISTENING)).1.pktRx.recv_ts_fraq = 1
      ∧ (∃ p, sentPackets (NTPUDPServer examplePlatform fractionOneEnv
            (NTPUDPServer examplePlatform fractionOneEnv
              (exampleState .SM_NTP_UDP_LISTENING)).1).2 = [p]
          ∧ p.ref_ts_fraq = 1 ∧ p.recv_ts_fraq = 1 ∧ p.tx_ts_fraq = 1
          ∧ p.ref_ts_secs = ntp_read_u32 (exampleState .SM_NTP_UDP_LISTENING).actualNTPTime
          ∧ p.recv_ts_secs = ntp_read_u32 (exampleState .SM_NTP_UDP_LISTENING).actualNTPTime
          ∧ p.tx_ts_secs = ntp_read_u32 (exampleState .SM_NTP_UDP_LISTENING).actualNTPTime)
      ∧ ntp_read_u32 1 = 0x01000000
      ∧ ntp_read_u32 1 ≠ 1 := by
  refine ⟨rfl, ⟨_, rfl, rfl, rfl, rfl, rfl, rfl, rfl⟩, rfl, by decide⟩

/-- The receive words of the reply are the two words LISTENING stored in the
request buffer at arrival, `ntp_read_u32 actualNTPTime` and the fraction read
then: ANSWER copies them, also after failed sends and whatever it reads
itself. -/
theorem receive_words_copied_from_arrival (c : Platform) (s : ServerState) (e : Env)
    (retries : List Env) (e' : Env)
    (hs : s.SNTPState = .SM_NTP_UDP_LISTENING)
    (hopen : e.UDPIsOpened_ret = true)
    (haddr : s.currentlyActiveIP = e.ntpsLastKnownIP)
    (hret : e.recvfrom_ret ≠ 0)
    (hfail : ∀ x ∈ retries, ¬ x.sendto_ret > 0) :
    (NTPUDPServer c e s).1.pktRx.recv_ts_secs = ntp_read_u32 s.actualNTPTime
      ∧ (NTPUDPServer c e s).1.pktRx.recv_ts_fraq = toDWORD e.fractionRef
      ∧ ∃ p, sentPackets
          (NTPUDPServer c e' (runState c (retries.map Invocation.server)
            (NTPUDPServer c e s).1)).2 = [p]
        ∧ p.recv_ts_secs = (NTPUDPServer c e s).1.pktRx.recv_ts_secs
        ∧ p.recv_ts_fraq = (NTPUDPServer c e s).1.pktRx.recv_ts_fraq := by
  have hl := listening_receipt c e s hs hopen haddr hret
  obtain ⟨h1, h2, -, -, -⟩ := pending_after_retries c s e retries hs hopen haddr hret hfail
  have hsec : (NTPUDPServer c e s).1.pktRx.recv_ts_secs = ntp_read_u32 s.actualNTPTime := by
    rw [hl]
  have hfra : (NTPUDPServer c e s).1.pktRx.recv_ts_fraq = toDWORD e.fractionRef := by
    rw [hl]
  refine ⟨hsec, hfra, buildReply e' _, answer_sentPackets c e' _ h1, ?_, ?_⟩
  · show (runState c (retries.map Invocation.server)
        (NTPUDPServer c e s).1).pktRx.recv_ts_secs = _
    rw [h2, hsec]
  · show (runState c (retries.map Invocation.server)
        (NTPUDPServer c e s).1).pktRx.recv_ts_fraq = _
    rw [h2, hfra]

/-- C11 at every reachable input: after any finite sequence of invocations from
the initial statics, the receive seconds of the stored request are 0, because
line 232 stamps them from `actualNTPTime`, which is never assigned; so the reply
built by an ANSWER invocation has `recv_ts_secs = 0` whatever the clock read
when the request arrived.  The fraction word is the one stored at arrival: for
the run create, bind, listen in `exampleEnv` (fraction 250 at arrival), answered
in `laterEnv` (fractions 700 and 750), the reply's receive timestamp is
`(0, 250)`. -/
theorem C11_receive_seconds_never_read (c : Platform) (is : List Invocation) (e : Env) :
    (runState c is (initialState c)).pktRx.recv_ts_secs = 0
      ∧ ((runState c is (initialState c)).SNTPState = .SM_NTP_UDP_ANSWER →
          sentPackets (NTPUDPServer c e (runState c is (initialState c))).2
            = [buildReply e (runState c is (initialState c))])
      ∧ (buildReply e (runState c is (initialState c))).recv_ts_secs = 0
      ∧ (buildReply e (runState c is (initialState c))).recv_ts_fraq
          = (runState c is (initialState c)).pktRx.recv_ts_fraq
      ∧ (runState examplePlatform
          [Invocation.server exampleEnv, Invocation.server exampleEnv,
           Invocation.server exampleEnv]
          (initialState examplePlatform)).SNTPState = .SM_NTP_UDP_ANSWER
      ∧ (buildReply laterEnv (runState examplePlatform
          [Invocation.server exampleEnv, Invocation.server exampleEnv,
           Invocation.server exampleEnv]
          (initialState examplePlatform))).recv_ts_secs = 0
      ∧ (buildReply laterEnv (runState examplePlatform
          [Invocation.server exampleEnv, Invocation.server exampleEnv,
           Invocation.server exampleEnv]
          (initialState examplePlatform))).recv_ts_fraq = 250 := by
  have h0 : (runState c is (initialState c)).pktRx.recv_ts_secs = 0 :=
    reachable_recv_secs c is (initialState c) rfl rfl
  have hcopy : (buildReply e (runState c is (initialState c))).recv_ts_secs
      = (runState c is (initialState c)).pktRx.recv_ts_secs := rfl
  refine ⟨h0, fun hst => answer_sentPackets c e _ hst, ?_, rfl, rfl, rfl, rfl⟩
  rw [hcopy, h0]

/-- C12 at every reachable input: after any finite sequence of invocations from
the initial statics, `actualNTPTime` is still 0, so the reply built by an ANSWER
invocation has `tx_ts_secs = 0` (and likewise `ref_ts_secs = 0`) whatever the
environment supplies, while `tx_ts_fraq` is the fraction read last.  Two
replies built at different times therefore never differ in their transmit
seconds. -/
theorem C12_transmit_seconds_never_read (c : Platform) (is : List Invocation) (e : Env) :
    (runState c is (initialState c)).actualNTPTime = 0
      ∧ ((runState c is (initialState c)).SNTPState = .SM_NTP_UDP_ANSWER →
          sentPackets (NTPUDPServer c e (runState c is (initialState c))).2
            = [buildReply e (runState c is (initialState c))])
      ∧ (buildReply e (runState c is (initialState c))).tx_ts_secs = 0
      ∧ (buildReply e (runState c is (initialState c))).ref_ts_secs = 0
      ∧ (buildReply e (runState c is (initialState c))).tx_ts_fraq = toDWORD e.fractionTx
      ∧ (buildReply exampleEnv pendingState).tx_ts_secs
          = (buildReply laterEnv pendingState).tx_ts_secs := by
  have h0 : (runState c is (initialState c)).actualNTPTime = 0 :=
    reachable_actualNTPTime c is (initialState c)
  have htx : (buildReply e (runState c is (initialState c))).tx_ts_secs
      = ntp_read_u32 (runState c is (initialState c)).actualNTPTime := rfl
  have href : (buildReply e (runState c is (initialState c))).ref_ts_secs
      = ntp_read_u32 (runState c is (initialState c)).actualNTPTime := rfl
  refine ⟨h0, fun hst => answer_sentPackets c e _ hst, ?_, ?_, rfl, rfl⟩
  · rw [htx, h0]; rfl
  · rw [href, h0]; rfl

/-- C13: when a LISTENING invocation receives a datagram and records the tick
`e.TickGet_ret`, then after any number of failed sends the reply handed to
`sendto` by an ANSWER invocation that reads the tick `e'.TickGet_ret` has
`root_delay.delay_secs = 0` and `root_delay.delay_fraq` equal to the remainder
by 1000, as computed by the C operator `%` on `LONG` operands, of the send tick
minus the receive tick.  When the send tick is not below the receive tick
and less than `2^31` ticks after it, this is the ordinary
`(ticks_at_send - ticks_at_receive) mod 1000`. -/
theorem C13_root_delay (c : Platform) (s : ServerState) (e : Env)
    (retries : List Env) (e' : Env)
    (hs : s.SNTPState = .SM_NTP_UDP_LISTENING)
    (hopen : e.UDPIsOpened_ret = true)
    (haddr : s.currentlyActiveIP = e.ntpsLastKnownIP)
    (hret : e.recvfrom_ret ≠ 0)
    (hfail : ∀ x ∈ retries, ¬ x.sendto_ret > 0) :
    ∃ p, sentPackets
        (NTPUDPServer c e' (runState c (retries.map Invocation.server)
          (NTPUDPServer c e s).1)).2 = [p]
      ∧ p.root_delay.delay_secs = 0
      ∧ p.root_delay.delay_fraq
          = (toLONG (toLONG (toDWORD e'.TickGet_ret)
              - toLONG (toDWORD e.TickGet_ret))).tmod 1000
      ∧ (toDWORD e.TickGet_ret ≤ toDWORD e'.TickGet_ret →
          toDWORD e'.TickGet_ret - toDWORD e.TickGet_ret < 2147483648 →
          p.root_delay.delay_fraq
            = (((toDWORD e'.TickGet_ret - toDWORD e.TickGet_ret) % 1000 : Nat) : Int)) := by
  obtain ⟨h1, -, -, h4, -⟩ := pending_after_retries c s e retries hs hopen haddr hret hfail
  have hfraq : (buildReply e' (runState c (retries.map Invocation.server)
        (NTPUDPServer c e s).1)).root_delay.delay_fraq
      = (toLONG (toLONG (toDWORD e'.TickGet_ret)
          - toLONG (toDWORD e.TickGet_ret))).tmod 1000 := by
    rw [buildReply_delay_fraq, h4]
  refine ⟨buildReply e' _, answer_sentPackets c e' _ h1, rfl, hfraq, ?_⟩
  intro hle hlt
  have ha : toDWORD e.TickGet_ret < 4294967296 := Nat.mod_lt _ (by decide)
  have hb : toDWORD e'.TickGet_ret < 4294967296 := Nat.mod_lt _ (by decide)
  rw [hfraq, toLONG_tick_difference _ _ ha hb hle hlt]
  exact (Int.ofNat_tmod _ _).symm

theorem C13_root_delay_witness :
    ∃ p, sentPackets
        (NTPUDPServer examplePlatform laterEnv
          (runState examplePlatform ([sendFailsEnv].map Invocation.server)
            (NTPUDPServer examplePlatform exampleEnv
              (exampleState .SM_NTP_UDP_LISTENING)).1)).2 = [p]
      ∧ p.root_delay.delay_secs = 0
      ∧ p.root_delay.delay_fraq = 600 :=
  match C13_root_delay examplePlatform (exampleState .SM_NTP_UDP_LISTENING) exampleEnv
    [sendFailsEnv] laterEnv rfl rfl rfl (by decide) (by decide) with
  | ⟨p, h1, h2, _, h4⟩ => ⟨p, h1, h2, h4 (by decide) (by decide)⟩

/-- C14: for every 32-bit value `x` with bytes `b0, b1, b2, b3` (`b0` least
significant), `ntp_read_u32 x` is the value with bytes `b3, b2, b1, b0`, that is
`((x & 0xFF) << 24) | ((x & 0xFF00) << 8) | ((x >> 8) & 0xFF00) | (x >> 24)`. -/
theorem C14_ntp_read_u32_reverses_bytes (x : Nat) (hx : x < 2 ^ 32) :
    u32_bytes (ntp_read_u32 x)
        = { d0 := (u32_bytes x).d3, d1 := (u32_bytes x).d2,
            d2 := (u32_bytes x).d1, d3 := (u32_bytes x).d0 }
      ∧ ntp_read_u32 x
        = ((x &&& 0xFF) <<< 24) ||| ((x &&& 0xFF00) <<< 8) ||| ((x >>> 8) &&& 0xFF00)
            ||| (x >>> 24) := by
  have hd : toDWORD x = x := Nat.mod_eq_of_lt hx
  have heq := ntp_read_u32_eq x
  rw [hd] at heq
  obtain ⟨h0, h1, h2, h3⟩ := u32_bytes_lt x
  refine ⟨?_, ?_⟩
  · rw [heq]
    exact u32_bytes_bytes_u32 _ h3 h2 h1 h0
  · rw [swap_expression_eq x hx, heq]
    simp only [bytes_u32, u32_bytes]

theorem C14_ntp_read_u32_reverses_bytes_witness :
    u32_bytes (ntp_read_u32 0x12345678) = { d0 := 0x12, d1 := 0x34, d2 := 0x56, d3 := 0x78 }
      ∧ ntp_read_u32 0x12345678 = 0x78563412 :=
  C14_ntp_read_u32_reverses_bytes 0x12345678 (by norm_num)

/-- C15: when a LISTENING invocation receives a datagram for which `recvfrom`
reports the sender address `e.recvfrom_src`, then after any number of failed
sends `udpaddr` still holds that address, and the next ANSWER invocation hands
its reply to `sendto` with exactly that destination. -/
theorem C15_reply_goes_to_sender (c : Platform) (s : ServerState) (e : Env)
    (retries : List Env) (e' : Env)
    (hs : s.SNTPState = .SM_NTP_UDP_LISTENING)
    (hopen : e.UDPIsOpened_ret = true)
    (haddr : s.currentlyActiveIP = e.ntpsLastKnownIP)
    (hret : e.recvfrom_ret ≠ 0)
    (hfail : ∀ x ∈ retries, ¬ x.sendto_ret > 0) :
    (NTPUDPServer c e s).1.udpaddr = e.recvfrom_src
      ∧ (runState c (retries.map Invocation.server) (NTPUDPServer c e s).1).udpaddr
          = e.recvfrom_src
      ∧ sentDestinations
          (NTPUDPServer c e' (runState c (retries.map Invocation.server)
            (NTPUDPServer c e s).1)).2 = [e.recvfrom_src] := by
  have hl := listening_receipt c e s hs hopen haddr hret
  obtain ⟨h1, -, h3, -, -⟩ := pending_after_retries c s e retries hs hopen haddr hret hfail
  refine ⟨by rw [hl], h3, ?_⟩
  rw [answer_sentDestinations c e' _ h1, h3]

theorem C15_reply_goes_to_sender_witness :
    sentDestinations
        (NTPUDPServer examplePlatform laterEnv
          (runState examplePlatform ([sendFailsEnv, sendFailsEnv].map Invocation.server)
            (NTPUDPServer examplePlatform exampleEnv
              (exampleState .SM_NTP_UDP_LISTENING)).1)).2
      = [{ sin_family := 2, sin_port := 123, sin_addr := 0xC0A80107 }] :=
  (C15_reply_goes_to_sender examplePlatform (exampleState .SM_NTP_UDP_LISTENING) exampleEnv
    [sendFailsEnv, sendFailsEnv] laterEnv rfl rfl rfl (by decide) (by decide)).2.2

/-- C16: a LISTENING invocation in which the endpoint is open, the address is
unchanged and `recvfrom` returns 0 leaves the state at LISTENING, calls no
`sendto`, and leaves the stored request (with its receive timestamp), the
sender address and the arrival tick as they were. -/
theorem C16_listening_idle (c : Platform) (e : Env) (s : ServerState)
    (hs : s.SNTPState = .SM_NTP_UDP_LISTENING)
    (hopen : e.UDPIsOpened_ret = true)
    (haddr : s.currentlyActiveIP = e.ntpsLastKnownIP)
    (hret : e.recvfrom_ret = 0) :
    (NTPUDPServer c e s).1.SNTPState = .SM_NTP_UDP_LISTENING
      ∧ (∀ call ∈ (NTPUDPServer c e s).2, call.isSend = false)
      ∧ (NTPUDPServer c e s).1.pktRx = s.pktRx
      ∧ (NTPUDPServer c e s).1.udpaddr = s.udpaddr
      ∧ (NTPUDPServer c e s).1.originFraction = s.originFraction := by
  rw [NTPUDPServer_listening c e s hs,
    caseListening_empty e { s with delayShift := e.gps_msDelay } hopen haddr hret]
  refine ⟨hs, ?_, rfl, rfl, rfl⟩
  intro call hcall
  simp only [List.mem_cons, List.mem_singleton, List.not_mem_nil, or_false] at hcall
  rcases hcall with h | h <;> rw [h] <;> rfl

theorem C16_listening_idle_witness :
    (NTPUDPServer examplePlatform noDatagramEnv
        { pendingState with SNTPState := .SM_NTP_UDP_LISTENING }).1.SNTPState
        = .SM_NTP_UDP_LISTENING
      ∧ (∀ call ∈ (NTPUDPServer examplePlatform noDatagramEnv
            { pendingState with SNTPState := .SM_NTP_UDP_LISTENING }).2, call.isSend = false)
      ∧ (NTPUDPServer examplePlatform noDatagramEnv
          { pendingState with SNTPState := .SM_NTP_UDP_LISTENING }).1.pktRx = pendingState.pktRx
      ∧ (NTPUDPServer examplePlatform noDatagramEnv
          { pendingState with SNTPState := .SM_NTP_UDP_LISTENING }).1.udpaddr
          = pendingState.udpaddr
      ∧ (NTPUDPServer examplePlatform noDatagramEnv
          { pendingState with SNTPState := .SM_NTP_UDP_LISTENING }).1.originFraction
          = pendingState.originFraction :=
  C16_listening_idle examplePlatform noDatagramEnv
    { pendingState with SNTPState := .SM_NTP_UDP_LISTENING } rfl rfl rfl rfl

/-- C17: a CREATE_SOCKET invocation ends in BIND when `socket` returns a handle
that is neither `INVALID_SOCKET` nor `UNKNOWN_SOCKET`, and stays in
CREATE_SOCKET otherwise; in both cases `currentlyActiveIP` becomes
`ntpsLastKnownIP` and the only external call is `socket` (no `bind`, `recvfrom`
or `sendto`).  `NTPUDPServer_Restart` sets the state to CREATE_SOCKET from every
state. -/
theorem C17_create_socket (c : Platform) (e : Env) (s : ServerState)
    (hs : s.SNTPState = .SM_NTP_CREATE_SOCKET) :
    (e.socket_ret ≠ c.INVALID_SOCKET ∧ e.socket_ret ≠ c.UNKNOWN_SOCKET →
        (NTPUDPServer c e s).1.SNTPState = .SM_NTP_UDP_BIND)
      ∧ (¬ (e.socket_ret ≠ c.INVALID_SOCKET ∧ e.socket_ret ≠ c.UNKNOWN_SOCKET) →
        (NTPUDPServer c e s).1.SNTPState = .SM_NTP_CREATE_SOCKET)
      ∧ (NTPUDPServer c e s).1.currentlyActiveIP = e.ntpsLastKnownIP
      ∧ (NTPUDPServer c e s).1.bsdUdpServerSocket = e.socket_ret
      ∧ (NTPUDPServer c e s).2 = [Call.socket e.socket_ret]
      ∧ ∀ s0 : ServerState, (NTPUDPServer_Restart s0).SNTPState = .SM_NTP_CREATE_SOCKET := by
  rw [NTPUDPServer_create c e s hs]
  refine ⟨?_, ?_, ?_, ?_, caseCreateSocket_calls c e _, fun _ => rfl⟩
  · intro h
    unfold caseCreateSocket
    dsimp only
    rw [if_pos h]
  · intro h
    unfold caseCreateSocket
    dsimp only
    rw [if_neg h]
    exact hs
  · unfold caseCreateSocket
    dsimp only
    split <;> rfl
  · unfold caseCreateSocket
    dsimp only
    split <;> rfl

theorem C17_create_socket_witness :
    (NTPUDPServer examplePlatform exampleEnv (initialState examplePlatform)).1.SNTPState
        = .SM_NTP_UDP_BIND
      ∧ (NTPUDPServer examplePlatform socketFailsEnv
          (initialState examplePlatform)).1.SNTPState = .SM_NTP_CREATE_SOCKET
      ∧ (NTPUDPServer examplePlatform socketFailsEnv
          (initialState examplePlatform)).1.currentlyActiveIP = socketFailsEnv.ntpsLastKnownIP
      ∧ (NTPUDPServer examplePlatform socketFailsEnv (initialState examplePlatform)).2
          = [Call.socket socketFailsEnv.socket_ret] :=
  ⟨(C17_create_socket examplePlatform exampleEnv (initialState examplePlatform) rfl).1
      (by decide),
   (C17_create_socket examplePlatform socketFailsEnv (initialState examplePlatform) rfl).2.1
      (by decide),
   (C17_create_socket examplePlatform socketFailsEnv (initialState examplePlatform) rfl).2.2.1,
   (C17_create_socket examplePlatform socketFailsEnv
      (initialState examplePlatform) rfl).2.2.2.2.1⟩

/-- C18: for every tick value recorded at receipt and every tick value read at
send, with the `LONG` subtraction taken modulo `2^32`, the value assigned to
`root_delay.delay_fraq` lies strictly between -1000 and 1000 and is stored in
the `SHORT` field without loss; it is non-negative whenever the `LONG`
difference is non-negative; and it is negative for some ticks: with arrival
tick 5000 and send tick 4999 (the counter has gone round) it is -1. -/
theorem C18_delay_fraq_range (e : Env) (s : ServerState) :
    -1000 < (buildReply e s).root_delay.delay_fraq
      ∧ (buildReply e s).root_delay.delay_fraq < 1000
      ∧ toSHORT ((toLONG (toLONG (toDWORD e.TickGet_ret) - s.originFraction)).tmod 1000)
          = (toLONG (toLONG (toDWORD e.TickGet_ret) - s.originFraction)).tmod 1000
      ∧ (buildReply e s).root_delay.delay_fraq
          = (toLONG (toLONG (toDWORD e.TickGet_ret) - s.originFraction)).tmod 1000
      ∧ (0 ≤ toLONG (toLONG (toDWORD e.TickGet_ret) - s.originFraction) →
          0 ≤ (buildReply e s).root_delay.delay_fraq)
      ∧ pendingState.originFraction = 5000
      ∧ (buildReply wrappedTickEnv pendingState).root_delay.delay_fraq = -1 := by
  obtain ⟨h1, h2⟩ :=
    tmod_1000_bounds (toLONG (toLONG (toDWORD e.TickGet_ret) - s.originFraction))
  have hv := buildReply_delay_fraq e s
  refine ⟨by rw [hv]; exact h1, by rw [hv]; exact h2,
    toSHORT_of_fits _ (by omega) (by omega), hv, ?_, ?_, ?_⟩
  · intro h0
    rw [hv]
    exact Int.tmod_nonneg _ h0
  · decide
  · rw [buildReply_delay_fraq]
    decide

/-- C19: the reply depends on the stored request only through its transmit
timestamp and the receive timestamp stamped at arrival.  For two sets of statics
whose stored requests agree on `tx_ts_secs`, `tx_ts_fraq`, `recv_ts_secs` and
`recv_ts_fraq`, with the same arrival tick and the same `actualNTPTime`, and for
the same environment (clock flags, fraction readings, tick values), the two
replies are equal in every field, whatever the other fields of the stored
requests; an ANSWER invocation hands the same packet to `sendto` in both. -/
theorem C19_reply_depends_on_transmit_only (c : Platform) (e : Env) (s1 s2 : ServerState)
    (hsecs : s1.pktRx.tx_ts_secs = s2.pktRx.tx_ts_secs)
    (hfraq : s1.pktRx.tx_ts_fraq = s2.pktRx.tx_ts_fraq)
    (hrsecs : s1.pktRx.recv_ts_secs = s2.pktRx.recv_ts_secs)
    (hrfraq : s1.pktRx.recv_ts_fraq = s2.pktRx.recv_ts_fraq)
    (htick : s1.originFraction = s2.originFraction)
    (hclock : s1.actualNTPTime = s2.actualNTPTime) :
    buildReply e s1 = buildReply e s2
      ∧ (s1.SNTPState = .SM_NTP_UDP_ANSWER → s2.SNTPState = .SM_NTP_UDP_ANSWER →
          sentPackets (NTPUDPServer c e s1).2 = sentPackets (NTPUDPServer c e s2).2) := by
  have h : buildReply e s1 = buildReply e s2 := by
    rw [buildReply_eq e s1, buildReply_eq e s2, hsecs, hfraq, hrsecs, hrfraq, htick, hclock]
  refine ⟨h, ?_⟩
  intro h1 h2
  rw [answer_sentPackets c e s1 h1, answer_sentPackets c e s2 h2, h]

theorem C19_reply_depends_on_transmit_only_witness :
    exampleRequest ≠ otherRequest
      ∧ buildReply laterEnv pendingState
        = buildReply laterEnv
            { pendingState with
              pktRx := { otherRequest with
                recv_ts_secs := pendingState.pktRx.recv_ts_secs
                recv_ts_fraq := pendingState.pktRx.recv_ts_fraq } }
      ∧ sentPackets (NTPUDPServer examplePlatform laterEnv pendingState).2
        = sentPackets (NTPUDPServer examplePlatform laterEnv
            { pendingState with
              pktRx := { otherRequest with
                recv_ts_secs := pendingState.pktRx.recv_ts_secs
                recv_ts_fraq := pendingState.pktRx.recv_ts_fraq } }).2 :=
  ⟨by decide,
   (C19_reply_depends_on_transmit_only examplePlatform laterEnv pendingState
      { pendingState with
        pktRx := { otherRequest with
          recv_ts_secs := pendingState.pktRx.recv_ts_secs
          recv_ts_fraq := pendingState.pktRx.recv_ts_fraq } }
      rfl rfl rfl rfl rfl rfl).1,
   (C19_reply_depends_on_transmit_only examplePlatform laterEnv pendingState
      { pendingState with
        pktRx := { otherRequest with
          recv_ts_secs := pendingState.pktRx.recv_ts_secs
          recv_ts_fraq := pendingState.pktRx.recv_ts_fraq } }
      rfl rfl rfl rfl rfl rfl).2 rfl rfl⟩

end NTP
